import Mathlib

/-!
The zstd backend of zram (`drivers/block/zram/zcomp_zstd.c`).

A shallow embedding of the backend facade: the global `ctx` pointer, the
`struct zstd_ctx` objects, the allocation accounting behind `kzalloc`,
`__vmalloc`, `vzalloc`, `vfree` and `kvfree`, and the four facade operations
`create`, `destroy`, `compress`, `decompress`.

The zstd engine itself (`lib/zstd`, `linux/zstd.h`) is not part of the
translated sources; it is taken as a parameter (`Engine`).  The target is the
little-endian LP64 kernel of the device (arm64): `size_t` is 64 bits wide,
`unsigned int` is 32 bits wide, and a `size_t *` reinterpreted as an
`unsigned int *` addresses the low half of the object.
-/

namespace ZcompZstd

/-- Kernel addresses; address `0` is `NULL`. -/
abbrev Ptr := Nat

/-- The C type `u8`. -/
abbrev u8 := Fin 256

/-- The page size of the target, `PAGE_SIZE` (4 KiB pages). -/
def PAGE_SIZE : Nat := 4096

/-- The errno constant `EINVAL`. -/
def EINVAL : Int := 22

/-- The errno constant `ENOMEM`. -/
def ENOMEM : Int := 12

/-- Source: `#define ZSTD_DEF_LEVEL 3`. -/
def ZSTD_DEF_LEVEL : Nat := 3

/-- Number of values of an `unsigned int`. -/
def UINT_MOD : Nat := 2 ^ 32

/-- Number of values of a `size_t`. -/
def SIZE_MOD : Nat := 2 ^ 64

/-- Conversion of a value to `unsigned int`. -/
def to_uint (v : Nat) : Nat := v % UINT_MOD

/-- Read of a `size_t` object through an `unsigned int *` (low half). -/
def size_t_load_uint (obj : Nat) : Nat := obj % UINT_MOD

/-- Write of `v` into a `size_t` object through an `unsigned int *`: the low
half is replaced, the high half keeps what it held. -/
def size_t_store_uint (obj v : Nat) : Nat := (obj / UINT_MOD) * UINT_MOD + v % UINT_MOD

/-- The struct `ZSTD_compressionParameters` of `linux/zstd.h`. -/
structure ZSTD_compressionParameters where
  windowLog : Nat
  chainLog : Nat
  hashLog : Nat
  searchLog : Nat
  searchLength : Nat
  targetLength : Nat
  strategy : Nat
deriving DecidableEq, Repr

/-- The struct `ZSTD_frameParameters` of `linux/zstd.h`. -/
structure ZSTD_frameParameters where
  contentSizeFlag : Nat
  checksumFlag : Nat
  noDictIDFlag : Nat
deriving DecidableEq, Repr

/-- The struct `ZSTD_parameters` of `linux/zstd.h`. -/
structure ZSTD_parameters where
  cParams : ZSTD_compressionParameters
  fParams : ZSTD_frameParameters
deriving DecidableEq, Repr

/-- The zstd engine the backend links against, as a parameter.  A transform
gets the context pointer, the destination buffer with its capacity, the source
buffer with its size (and the parameters), and gives back the `size_t` result
together with the destination buffer after the call; the transforms are
single-shot, their result is a function of these arguments. -/
structure Engine where
  ZSTD_getParams : Nat → Nat → Nat → ZSTD_parameters
  ZSTD_CCtxWorkspaceBound : ZSTD_compressionParameters → Nat
  ZSTD_DCtxWorkspaceBound : Nat
  ZSTD_initCCtx : Ptr → Nat → Ptr
  ZSTD_initDCtx : Ptr → Nat → Ptr
  ZSTD_compressCCtx : Ptr → List u8 → Nat → List u8 → Nat → ZSTD_parameters → Nat × List u8
  ZSTD_decompressDCtx : Ptr → List u8 → Nat → List u8 → Nat → Nat × List u8
  ZSTD_isError : Nat → Bool

/-- Source: `struct zstd_ctx`. -/
structure zstd_ctx where
  cctx : Ptr
  dctx : Ptr
  cwksp : Ptr
  dwksp : Ptr
deriving DecidableEq, Repr

/-- What a bad pointer access does: a read or write through `NULL`, or through
an address that holds no live `struct zstd_ctx`. -/
inductive Fault where
  | null_deref
  | bad_deref
deriving DecidableEq, Repr

deriving instance DecidableEq for Except

/-- Kernel state seen by the backend: the global `ctx`, the contents of the
live `struct zstd_ctx` objects, and the allocation accounting (`live` holds
every address acquired and not yet released, `badFrees` every release of an
address that was not live, `next` numbers the addresses handed out). -/
structure KState where
  ctx : Ptr
  objs : List (Ptr × zstd_ctx)
  live : List Ptr
  next : Nat
  badFrees : List Ptr
deriving DecidableEq, Repr

/-- Outcome of each allocation made by `zcomp_zstd_create`, in program order:
the `kzalloc` of the structure, the `__vmalloc` fallback, and the `vzalloc` of
each workspace. -/
structure AllocOutcomes where
  kzalloc : Bool
  vmalloc : Bool
  cwksp : Bool
  dwksp : Bool
deriving DecidableEq, Repr

/-- Modelled from the spec: the workspace allocator `acquire` (`vzalloc` and
the like, from `mm/`): it gives a fresh non-NULL address, accounted as live, or
fails with `NULL` leaving the accounting as it was. -/
def acquire (ok : Bool) (s : KState) : Ptr × KState :=
  if ok then (s.next + 1, { s with next := s.next + 1, live := (s.next + 1) :: s.live })
  else (0, s)

/-- Modelled from the spec: `vzalloc(size)`, an `acquire` of zeroed memory. -/
def vzalloc (ok : Bool) (_size : Nat) (s : KState) : Ptr × KState := acquire ok s

/-- Modelled from the spec: `release` (`vfree`): nothing for `NULL`; a live
address leaves the live set; releasing an address that is not live is recorded
as a bad free. -/
def vfree (p : Ptr) (s : KState) : KState :=
  if p = 0 then s
  else if p ∈ s.live then { s with live := s.live.erase p }
  else { s with badFrees := p :: s.badFrees }

/-- The zeroed `struct zstd_ctx` a zeroing allocation gives. -/
def zstd_ctx_zero : zstd_ctx := ⟨0, 0, 0, 0⟩

/-- Modelled from the spec: `kzalloc(sizeof(*ctx), ...)`: an `acquire` whose
memory holds a zeroed `struct zstd_ctx`. -/
def kzalloc (ok : Bool) (s : KState) : Ptr × KState :=
  let r := acquire ok s
  if r.1 = 0 then r else (r.1, { r.2 with objs := (r.1, zstd_ctx_zero) :: r.2.objs })

/-- Modelled from the spec: the zeroing `__vmalloc(sizeof(*ctx), ... |
__GFP_ZERO ..., PAGE_KERNEL)` fallback, an `acquire` like `kzalloc`. -/
def __vmalloc (ok : Bool) (s : KState) : Ptr × KState := kzalloc ok s

/-- Removal of the object stored at `p`. -/
def dropObj (p : Ptr) : List (Ptr × zstd_ctx) → List (Ptr × zstd_ctx)
  | [] => []
  | (q, d) :: r => if q = p then r else (q, d) :: dropObj p r

/-- Modelled from the spec: `kvfree(p)`: `release` of the structure, whose
contents are gone afterwards. -/
def kvfree (p : Ptr) (s : KState) : KState :=
  let s1 := vfree p s
  { s1 with objs := dropObj p s1.objs }

/-- Read of the `struct zstd_ctx` at `p` (`p->field`). -/
def load (s : KState) (p : Ptr) : Except Fault zstd_ctx :=
  if p = 0 then .error .null_deref
  else match s.objs.lookup p with
    | some c => .ok c
    | none => .error .bad_deref

/-- Replacement of the object stored at `p`. -/
def setObj (p : Ptr) (c : zstd_ctx) : List (Ptr × zstd_ctx) → List (Ptr × zstd_ctx)
  | [] => []
  | (q, d) :: r => if q = p then (q, c) :: r else (q, d) :: setObj p c r

/-- Write to the `struct zstd_ctx` at `p` (`p->field = v`). -/
def store (s : KState) (p : Ptr) (f : zstd_ctx → zstd_ctx) : Except Fault KState :=
  match load s p with
  | .error e => .error e
  | .ok c => .ok { s with objs := setObj p (f c) s.objs }

/-- Source: `zstd_params`. -/
def zstd_params (E : Engine) : ZSTD_parameters := E.ZSTD_getParams ZSTD_DEF_LEVEL 0 0

/-- Source: `zstd_comp_init`; `p` is the `struct zstd_ctx *` argument. -/
def zstd_comp_init (E : Engine) (o : AllocOutcomes) (p : Ptr) (s : KState) :
    Except Fault (Int × KState) :=
  let params := zstd_params E
  let wksp_size := E.ZSTD_CCtxWorkspaceBound params.cParams
  let a := vzalloc o.cwksp wksp_size s
  match store a.2 p (fun c => { c with cwksp := a.1 }) with
  | .error e => .error e
  | .ok s1 =>
    match load s1 p with
    | .error e => .error e
    | .ok c1 =>
      if c1.cwksp = 0 then .ok (-ENOMEM, s1)
      else
        match store s1 p (fun c => { c with cctx := E.ZSTD_initCCtx c1.cwksp wksp_size }) with
        | .error e => .error e
        | .ok s2 =>
          match load s2 p with
          | .error e => .error e
          | .ok c2 =>
            if c2.cctx = 0 then .ok (-EINVAL, vfree c2.cwksp s2)
            else .ok (0, s2)

/-- Source: `zstd_decomp_init`; `p` is the `struct zstd_ctx *` argument. -/
def zstd_decomp_init (E : Engine) (o : AllocOutcomes) (p : Ptr) (s : KState) :
    Except Fault (Int × KState) :=
  let wksp_size := E.ZSTD_DCtxWorkspaceBound
  let a := vzalloc o.dwksp wksp_size s
  match store a.2 p (fun c => { c with dwksp := a.1 }) with
  | .error e => .error e
  | .ok s1 =>
    match load s1 p with
    | .error e => .error e
    | .ok c1 =>
      if c1.dwksp = 0 then .ok (-ENOMEM, s1)
      else
        match store s1 p (fun c => { c with dctx := E.ZSTD_initDCtx c1.dwksp wksp_size }) with
        | .error e => .error e
        | .ok s2 =>
          match load s2 p with
          | .error e => .error e
          | .ok c2 =>
            if c2.dctx = 0 then .ok (-EINVAL, vfree c2.dwksp s2)
            else .ok (0, s2)

/-- Source: `zstd_comp_exit`. -/
def zstd_comp_exit (p : Ptr) (s : KState) : Except Fault KState :=
  match load s p with
  | .error e => .error e
  | .ok c => store (vfree c.cwksp s) p (fun c => { c with cwksp := 0, cctx := 0 })

/-- Source: `zstd_decomp_exit`. -/
def zstd_decomp_exit (p : Ptr) (s : KState) : Except Fault KState :=
  match load s p with
  | .error e => .error e
  | .ok c => store (vfree c.dwksp s) p (fun c => { c with dwksp := 0, dctx := 0 })

/-- Source: `__zstd_init`. -/
def __zstd_init (E : Engine) (o : AllocOutcomes) (p : Ptr) (s : KState) :
    Except Fault (Int × KState) :=
  match zstd_comp_init E o p s with
  | .error e => .error e
  | .ok (ret, s1) =>
    if ret ≠ 0 then .ok (ret, s1)
    else match zstd_decomp_init E o p s1 with
      | .error e => .error e
      | .ok (ret, s2) =>
        if ret ≠ 0 then
          match zstd_comp_exit p s2 with
          | .error e => .error e
          | .ok s3 => .ok (ret, s3)
        else .ok (ret, s2)

/-- The arguments one engine transform call was given. -/
structure EngineCall where
  ctxp : Ptr
  dstCapacity : Nat
  srcSize : Nat
  params : Option ZSTD_parameters
deriving DecidableEq, Repr

/-- What a transform call leaves behind: the `int` it returns, the destination
buffer, the object behind the length pointer, and the engine call it made. -/
structure Xform where
  ret : Int
  dst : List u8
  dlen : Nat
  call : EngineCall
deriving DecidableEq, Repr

/-- Source: `__zstd_compress`; `dlen` is the `unsigned int` behind the length
pointer (in the result: what it holds at the `return`), `zctx` the context
pointer handed in.  The `printk` diagnostics are left out. -/
def __zstd_compress (E : Engine) (s : KState) (src : List u8) (slen : Nat) (dst : List u8)
    (dlen : Nat) (zctx : Ptr) : Except Fault Xform :=
  let params := zstd_params E
  match load s zctx with
  | .error e => .error e
  | .ok c =>
    let r := E.ZSTD_compressCCtx c.cctx dst dlen src slen params
    let call : EngineCall := ⟨c.cctx, dlen, slen, some params⟩
    if E.ZSTD_isError r.1 then .ok ⟨-EINVAL, r.2, dlen, call⟩
    else .ok ⟨0, r.2, to_uint r.1, call⟩

/-- Source: `__zstd_decompress`. -/
def __zstd_decompress (E : Engine) (s : KState) (src : List u8) (slen : Nat) (dst : List u8)
    (dlen : Nat) (zctx : Ptr) : Except Fault Xform :=
  match load s zctx with
  | .error e => .error e
  | .ok c =>
    let r := E.ZSTD_decompressDCtx c.dctx dst dlen src slen
    let call : EngineCall := ⟨c.dctx, dlen, slen, none⟩
    if E.ZSTD_isError r.1 then .ok ⟨-EINVAL, r.2, dlen, call⟩
    else .ok ⟨0, r.2, to_uint r.1, call⟩

/-- Source: `zcomp_zstd_create`; gives the handle returned and the state. -/
def zcomp_zstd_create (E : Engine) (o : AllocOutcomes) (s : KState) :
    Except Fault (Ptr × KState) :=
  let k := kzalloc o.kzalloc s
  let a := if k.1 = 0 then __vmalloc o.vmalloc k.2 else k
  if a.1 ≠ 0 then
    match __zstd_init E o a.1 a.2 with
    | .error e => .error e
    | .ok (_, s1) => .ok (a.1, { s1 with ctx := a.1 })
  else .ok (a.1, { a.2 with ctx := a.1 })

/-- Source: `zcomp_zstd_destroy`. -/
def zcomp_zstd_destroy (priv : Ptr) (s : KState) : Except Fault KState :=
  match zstd_comp_exit priv s with
  | .error e => .error e
  | .ok s1 =>
    match zstd_decomp_exit priv s1 with
    | .error e => .error e
    | .ok s2 => .ok { kvfree priv s2 with ctx := 0 }

/-- Source: `zcomp_zstd_compress`; `dst_len` is the `size_t` object behind the
length pointer, `priv` the handle the caller passes as `private`.  The
`unsigned int` that `__zstd_compress` works on is the low half of that object,
so the object at the `return` is its old high half with that `unsigned int`. -/
def zcomp_zstd_compress (E : Engine) (s : KState) (src dst : List u8) (dst_len : Nat)
    (_priv : Ptr) : Except Fault Xform :=
  match __zstd_compress E s src (to_uint PAGE_SIZE) dst (size_t_load_uint dst_len) s.ctx with
  | .error e => .error e
  | .ok r => .ok { r with dlen := size_t_store_uint dst_len r.dlen }

/-- Source: `zcomp_zstd_decompress`; `dlen` of the result is the local
`dst_len` at the `return`, which the source drops: the caller gets the `int`
and the destination buffer. -/
def zcomp_zstd_decompress (E : Engine) (s : KState) (src : List u8) (src_len : Nat)
    (dst : List u8) : Except Fault Xform :=
  let dst_len := PAGE_SIZE
  match __zstd_decompress E s src (to_uint src_len) dst (size_t_load_uint dst_len) s.ctx with
  | .error e => .error e
  | .ok r => .ok { r with dlen := size_t_store_uint dst_len r.dlen }

/-- A store-only engine used to evaluate the facade on concrete inputs: frames
are the plain bytes, a transform fails when the capacity is too small, the
initialisers place the context at the start of the workspace. -/
def storeEngine : Engine where
  ZSTD_getParams := fun level _ _ => ⟨⟨level, 0, 0, 0, 0, 0, 0⟩, ⟨0, 0, 0⟩⟩
  ZSTD_CCtxWorkspaceBound := fun _ => 64
  ZSTD_DCtxWorkspaceBound := 64
  ZSTD_initCCtx := fun w _ => w
  ZSTD_initDCtx := fun w _ => w
  ZSTD_compressCCtx := fun _ dst cap src n _ =>
    if n ≤ cap then (n, src.take n ++ dst.drop n) else (SIZE_MOD - 1, dst)
  ZSTD_decompressDCtx := fun _ dst cap src n =>
    if n ≤ cap then (n, src.take n ++ dst.drop n) else (SIZE_MOD - 1, dst)
  ZSTD_isError := fun r => decide (SIZE_MOD - 120 < r)

/-- The store-only engine with initialisers that reject every workspace. -/
def rejectEngine : Engine :=
  { storeEngine with ZSTD_initCCtx := fun _ _ => 0, ZSTD_initDCtx := fun _ _ => 0 }

/-- The state before any `create`: `ctx` is `NULL`, nothing is allocated. -/
def boot : KState := ⟨0, [], [], 0, []⟩

/-- Allocation outcomes in which every allocation succeeds. -/
def allOk : AllocOutcomes := ⟨true, true, true, true⟩

/-- The state `zcomp_zstd_create` leaves when run once from `boot` with every
allocation and both initialisers of `storeEngine` succeeding. -/
def oneInstance : KState := ⟨1, [(1, ⟨2, 3, 2, 3⟩)], [3, 2, 1], 3, []⟩

/-- A page of zero bytes. -/
def zeroPage : List u8 := List.replicate PAGE_SIZE 0

/-- A page of the byte `'A'`. -/
def pageA : List u8 := List.replicate PAGE_SIZE 65

/-- A destination buffer of two pages. -/
def twoPages : List u8 := zeroPage ++ zeroPage

/-- The instance `h` is fully created in `s`: its structure is live and both
engine contexts are set. -/
def Created (s : KState) (h : Ptr) : Prop :=
  ∃ c, load s h = .ok c ∧ c.cctx ≠ 0 ∧ c.dctx ≠ 0

/-- The engine pair is lossless: a compression of `src` that is not an error
reports a length within the capacity it was given, and decompressing that many
bytes of its output into a capacity that holds `src` is not an error and gives
back the length and the bytes of `src`. -/
def Lossless (E : Engine) : Prop :=
  ∀ (cctx dctx : Ptr) (dst : List u8) (cap : Nat) (src : List u8) (p : ZSTD_parameters)
    (out : List u8) (dcap : Nat),
    cctx ≠ 0 → dctx ≠ 0 →
    E.ZSTD_isError (E.ZSTD_compressCCtx cctx dst cap src src.length p).1 = false →
    src.length ≤ dcap →
    (E.ZSTD_compressCCtx cctx dst cap src src.length p).1 ≤ cap ∧
    E.ZSTD_isError (E.ZSTD_decompressDCtx dctx out dcap
        (E.ZSTD_compressCCtx cctx dst cap src src.length p).2
        (E.ZSTD_compressCCtx cctx dst cap src src.length p).1).1 = false ∧
    (E.ZSTD_decompressDCtx dctx out dcap
        (E.ZSTD_compressCCtx cctx dst cap src src.length p).2
        (E.ZSTD_compressCCtx cctx dst cap src src.length p).1).2.take src.length = src

/-- The decompressor never reports a decoded length above the capacity it was
given. -/
def DecodeWithinCapacity (E : Engine) : Prop :=
  ∀ (dctx : Ptr) (dst : List u8) (cap : Nat) (src : List u8) (n : Nat),
    E.ZSTD_isError (E.ZSTD_decompressDCtx dctx dst cap src n).1 = false →
    (E.ZSTD_decompressDCtx dctx dst cap src n).1 ≤ cap

/-- Both engine initialisers succeed on the calls `zcomp_zstd_create` makes:
`ZSTD_initCCtx` accepts a non-NULL workspace of the size
`ZSTD_CCtxWorkspaceBound(params.cParams)` and `ZSTD_initDCtx` one of the size
`ZSTD_DCtxWorkspaceBound()`.  Nothing is asked of other sizes. -/
def InitsSucceed (E : Engine) : Prop :=
  ∀ (w : Ptr), w ≠ 0 →
    E.ZSTD_initCCtx w (E.ZSTD_CCtxWorkspaceBound (zstd_params E).cParams) ≠ 0 ∧
    E.ZSTD_initDCtx w E.ZSTD_DCtxWorkspaceBound ≠ 0

/-- The store-only engine with initialisers that check the workspace size: a
workspace smaller than the bound (64 bytes) is rejected. -/
def sizingEngine : Engine :=
  { storeEngine with
    ZSTD_initCCtx := fun w sz => if 64 ≤ sz then w else 0,
    ZSTD_initDCtx := fun w sz => if 64 ≤ sz then w else 0 }

/-- One lifecycle: `zcomp_zstd_create`, then `zcomp_zstd_destroy` of the handle
it returned. -/
def create_destroy (E : Engine) (o : AllocOutcomes) (s : KState) : Except Fault KState :=
  match zcomp_zstd_create E o s with
  | .error e => .error e
  | .ok (h, s1) => zcomp_zstd_destroy h s1

/-- The loop `for (i = 0; i < n; i++) destroy(create())`. -/
def create_destroy_loop (E : Engine) (o : AllocOutcomes) : Nat → KState → Except Fault KState
  | 0, s => .ok s
  | n + 1, s =>
    match create_destroy E o s with
    | .error e => .error e
    | .ok s1 => create_destroy_loop E o n s1

/-- The state after `create` of A and then `create` of B from `boot`, every
allocation and both initialisers of `storeEngine` succeeding: A is the handle
`1` (contexts `2`, `3`), B the handle `4` (contexts `5`, `6`). -/
def twoInstances : KState :=
  ⟨4, [(4, ⟨5, 6, 5, 6⟩), (1, ⟨2, 3, 2, 3⟩)], [6, 5, 4, 3, 2, 1], 6, []⟩

/-- The state after `create` A, `create` B, `destroy` B from `boot`. -/
def afterDestroyB : KState := ⟨0, [(1, ⟨2, 3, 2, 3⟩)], [3, 2, 1], 6, []⟩

/-- Allocation outcomes in which the compression workspace cannot be
obtained and every other allocation succeeds. -/
def cwkspFails : AllocOutcomes := ⟨true, true, false, true⟩

/-- The store-only engine with a decompression initialiser that rejects every
workspace. -/
def rejectDEngine : Engine :=
  { storeEngine with ZSTD_initDCtx := fun _ _ => 0 }

/-- Allocation outcomes in which the decompression workspace cannot be
obtained and every other allocation succeeds. -/
def dwkspFails : AllocOutcomes := ⟨true, true, true, false⟩

/-- The state after the `kzalloc` of one structure from `boot`: the zeroed
structure lives at address `1`. -/
def oneStruct : KState := ⟨0, [(1, zstd_ctx_zero)], [1], 1, []⟩

end ZcompZstd

/-!
The ISA1000 vibrator drivers: `drivers/misc/isa1000.c` (namespace
`Isa1000.Misc`) and `drivers/tspdrv/ImmVibeSPI_ISA1000.c` (namespace
`Isa1000.Tspdrv`).  C `int` values are integers, `unsigned int` arithmetic is
taken modulo `2 ^ 32`; the PWM core and the GPIO lines are seen through the
record of the operations the drivers issue, the PWM core answering with the
return codes of `Pwm`.
-/

namespace Isa1000

/-- The constant `NSEC_PER_SEC` of `linux/time.h`. -/
def NSEC_PER_SEC : Nat := 1000000000

/-- Conversion of an `int` to `unsigned int`. -/
def to_u32 (x : Int) : Nat := (x % 4294967296).toNat

/-- Conversion of an `unsigned int` value to `int`. -/
def to_int (n : Nat) : Int :=
  if n % 4294967296 < 2147483648 then (n % 4294967296 : Nat) else (n % 4294967296 : Nat) - 4294967296

/-- Result of an `int` operation, wrapped to the 32 bits of an `int`. -/
def wrap_int (x : Int) : Int := (x + 2147483648) % 4294967296 - 2147483648

/-- The constant `KTIME_SEC_MAX` of `linux/ktime.h`, `LONG_MAX / NSEC_PER_SEC`. -/
def KTIME_SEC_MAX : Int := 9223372036

/-- The constant `KTIME_MAX` of `linux/ktime.h`. -/
def KTIME_MAX : Int := 9223372036854775807

/-- The inline function `ktime_set(secs, nsecs)` of `linux/ktime.h` on a 64-bit
kernel: the time in nanoseconds. -/
def ktime_set (secs nsecs : Int) : Int :=
  if secs ≥ KTIME_SEC_MAX then KTIME_MAX else secs * NSEC_PER_SEC + nsecs

/-- An operation a driver issued to the PWM core or to a GPIO line. -/
inductive HwOp where
  | pwm_config (duty_ns : Int) (period_ns : Int)
  | pwm_enable
  | pwm_disable
  | gpio_set (gpio : Int) (value : Int)
deriving DecidableEq, Repr

/-- The return codes of the PWM core: of `pwm_config(pwm, duty_ns, period_ns)`
and of `pwm_enable(pwm)`. -/
structure Pwm where
  pwm_config : Int → Int → Int
  pwm_enable : Int

/-- A PWM core on which every call succeeds. -/
def pwmOk : Pwm := ⟨fun _ _ => 0, 0⟩

/-- A PWM core that refuses every configuration. -/
def pwmConfigFails : Pwm := ⟨fun _ _ => -22, 0⟩

/-- A PWM core that accepts configurations and cannot be enabled. -/
def pwmEnableFails : Pwm := ⟨fun _ _ => 0, -22⟩

namespace Misc

/-- Source: `#define PWM_PERCENT_MIN 0`. -/
def PWM_PERCENT_MIN : Int := 0

/-- Source: `#define PWM_PERCENT_MAX 100`. -/
def PWM_PERCENT_MAX : Int := 100

/-- Source: `#define PWM_FREQUENCY 30000`. -/
def PWM_FREQUENCY : Nat := 30000

/-- Source: `#define PWM_TIMEOUT 15000`. -/
def PWM_TIMEOUT : Int := 15000

/-- Source: `struct isa1000_vib`, the fields the modelled functions use.
`vib_timer` holds the arguments of `ktime_set` the timer was armed with, or
`none` when it is not armed; `work` tells whether the work item was scheduled;
`hw` records the operations issued to the PWM core and the GPIO. -/
structure isa1000_vib where
  pwm_frequency : Nat
  pwm_duty_percent : Int
  enable_gpio : Int
  timeout : Int
  state : Bool
  vib_timer : Option (Int × Int)
  work : Bool
  hw : List HwOp
deriving DecidableEq, Repr

/-- Source: the static `vib_dev`. -/
def vib_dev : isa1000_vib :=
  { pwm_frequency := PWM_FREQUENCY, pwm_duty_percent := PWM_PERCENT_MAX, enable_gpio := 0,
    timeout := PWM_TIMEOUT, state := false, vib_timer := none, work := false, hw := [] }

/-- Source: `isa1000_pwm_store`; `tmp` is what the local `tmp` holds after the
`sscanf` (the parsed number, or whatever the variable held when nothing was
parsed), `size` the byte count, which is returned. -/
def isa1000_pwm_store (vib : isa1000_vib) (tmp : Int) (size : Nat) : isa1000_vib × Nat :=
  let tmp := if tmp > PWM_PERCENT_MAX then PWM_PERCENT_MAX
    else if tmp < PWM_PERCENT_MIN then PWM_PERCENT_MIN else tmp
  ({ vib with pwm_duty_percent := tmp }, size)

/-- Source: `isa1000_config`; gives the return code of `pwm_config` and the
device with the call recorded. -/
def isa1000_config (P : Pwm) (vib : isa1000_vib) (percent : Int) : Int × isa1000_vib :=
  let period_ns := (NSEC_PER_SEC / vib.pwm_frequency) % 4294967296
  let duty_ns := ((period_ns * to_u32 (percent + PWM_PERCENT_MAX)) % 4294967296) /
    to_u32 (2 * PWM_PERCENT_MAX)
  (P.pwm_config (to_int duty_ns) (to_int period_ns),
    { vib with hw := vib.hw ++ [HwOp.pwm_config (to_int duty_ns) (to_int period_ns)] })

/-- Source: `isa1000_enable`. -/
def isa1000_enable (vib : isa1000_vib) (value : Int) : isa1000_vib :=
  let vib := { vib with vib_timer := none }
  let vib :=
    if value = 0 then { vib with state := false }
    else
      let vib := { vib with state := true }
      let value := if value > vib.timeout then vib.timeout else value
      { vib with vib_timer := some (Int.tdiv value 1000, wrap_int (Int.tmod value 1000 * 1000000)) }
  { vib with work := true }

/-- A sequence of writes to the `vtg_level` attribute: each element is what
`sscanf` left in `tmp` and the byte count of the write. -/
def run_stores : List (Int × Nat) → isa1000_vib → isa1000_vib
  | [], vib => vib
  | (tmp, size) :: rest, vib => run_stores rest (isa1000_pwm_store vib tmp size).1

end Misc

namespace Tspdrv

/-- Source: `#define ISA1000_DEFAULT_PWM_FREQ 30000`. -/
def ISA1000_DEFAULT_PWM_FREQ : Nat := 30000

/-- Source: the static `pwm_period_ns`. -/
def pwm_period_ns : Nat := (NSEC_PER_SEC / ISA1000_DEFAULT_PWM_FREQ) % 4294967296

/-- The status `VIBE_S_SUCCESS` of the TouchSense headers. -/
def VIBE_S_SUCCESS : Int := 0

/-- The status `VIBE_E_FAIL` of the TouchSense headers. -/
def VIBE_E_FAIL : Int := -4

/-- Source: `struct isa1000_vib`, the fields the modelled functions use.
`vib_timer` holds the arguments of `ktime_set` the timer was armed with, or
`none` when it is not armed; `work` tells whether the work item was
scheduled. -/
structure isa1000_vib where
  enable_gpio : Int
  timeout : Int
  state : Int
  vib_timer : Option (Int × Int)
  work : Bool
deriving DecidableEq, Repr

/-- The variables of the file: the global `vib_dev` (`none` is `NULL`), the
static `last_level` of `isa1000_vib_set_level`, and the record of the
operations issued to the PWM core and the GPIO. -/
structure Driver where
  vib_dev : Option isa1000_vib
  last_level : Int
  hw : List HwOp
deriving DecidableEq, Repr

/-- The variables as the module is loaded: no device, `last_level = 128`. -/
def loaded : Driver := ⟨none, 128, []⟩

/-- The variables inside `isa1000_probe` right after `vib_dev = vib`, for a
device on GPIO `5` with the timeout 15000: `last_level` still holds its
initial 128 and nothing was issued yet. -/
def attached : Driver := ⟨some ⟨5, 15000, 0, none, false⟩, 128, []⟩

/-- The variables at the end of `isa1000_probe`, which finishes with
`vib_dev = vib; isa1000_vib_set_level(0);`: from `attached`, the GPIO was
switched off, the PWM disabled, and `last_level` is 0. -/
def probed : Driver :=
  ⟨some ⟨5, 15000, 0, none, false⟩, 0, [HwOp.gpio_set 5 0, HwOp.pwm_disable]⟩

/-- Source: `isa1000_vib_enable`. -/
def isa1000_vib_enable (vib : isa1000_vib) (value : Int) : isa1000_vib :=
  let vib := { vib with vib_timer := none }
  let vib :=
    if value = 0 then { vib with state := 0 }
    else
      let value := if value > vib.timeout then vib.timeout else value
      let vib := { vib with state := 1 }
      { vib with vib_timer := some (Int.tdiv value 1000, wrap_int (Int.tmod value 1000 * 1000000)) }
  { vib with work := true }

/-- Source: `isa1000_vib_set_level`. -/
def isa1000_vib_set_level (P : Pwm) (level : Int) (d : Driver) : Driver :=
  match d.vib_dev with
  | none => d
  | some vib =>
    if d.last_level = level then d
    else if level ≠ 0 then
      let duty := to_int (((pwm_period_ns * to_u32 (level + 128)) % 4294967296) / to_u32 256)
      let rc := P.pwm_config duty (to_int pwm_period_ns)
      let d := { d with hw := d.hw ++ [HwOp.pwm_config duty (to_int pwm_period_ns)] }
      if rc < 0 then { d with hw := d.hw ++ [HwOp.gpio_set vib.enable_gpio 0] }
      else
        let rc := P.pwm_enable
        let d := { d with hw := d.hw ++ [HwOp.pwm_enable] }
        if rc < 0 then { d with hw := d.hw ++ [HwOp.gpio_set vib.enable_gpio 0] }
        else
          let d := { d with hw := d.hw ++ [HwOp.gpio_set vib.enable_gpio 1] }
          { d with last_level := level }
    else
      let d := { d with hw := d.hw ++ [HwOp.gpio_set vib.enable_gpio 0] }
      let d := { d with hw := d.hw ++ [HwOp.pwm_disable] }
      { d with last_level := level }

/-- The value of a byte read as `signed char`. -/
def s8 (b : Fin 256) : Int := if b.val < 128 then b.val else (b.val : Int) - 256

/-- The value of two bytes read as a little-endian `signed short`. -/
def s16 (lo hi : Fin 256) : Int :=
  if lo.val + 256 * hi.val < 32768 then ((lo.val + 256 * hi.val : Nat) : Int)
  else ((lo.val + 256 * hi.val : Nat) : Int) - 65536

/-- Source: `ImmVibeSPI_ForceOut_SetSamples`; the buffer is given by its
bytes. -/
def ImmVibeSPI_ForceOut_SetSamples (P : Pwm) (_nActuatorIndex : Nat)
    (nOutputSignalBitDepth : Nat) (nBufferSizeInBytes : Nat) (pForceOutputBuffer : List (Fin 256))
    (d : Driver) : Int × Driver :=
  if nOutputSignalBitDepth = 8 then
    if nBufferSizeInBytes ≠ 1 then (VIBE_E_FAIL, d)
    else
      let level := s8 (pForceOutputBuffer.getD 0 0)
      (VIBE_S_SUCCESS, isa1000_vib_set_level P level d)
  else if nOutputSignalBitDepth = 16 then
    if nBufferSizeInBytes ≠ 2 then (VIBE_E_FAIL, d)
    else
      let level := s16 (pForceOutputBuffer.getD 0 0) (pForceOutputBuffer.getD 1 0)
      let level := level >>> (8 : Nat)
      (VIBE_S_SUCCESS, isa1000_vib_set_level P level d)
  else (VIBE_E_FAIL, d)

end Tspdrv

end Isa1000

namespace ZcompZstd

/-! ## Basic facts -/

theorem to_uint_PAGE_SIZE : to_uint PAGE_SIZE = PAGE_SIZE := by decide

theorem size_t_load_uint_PAGE_SIZE : size_t_load_uint PAGE_SIZE = PAGE_SIZE := by decide

theorem size_t_store_uint_PAGE_SIZE : size_t_store_uint PAGE_SIZE PAGE_SIZE = PAGE_SIZE := by
  decide

theorem size_t_load_uint_lt (n : Nat) : size_t_load_uint n < UINT_MOD :=
  Nat.mod_lt _ (by decide)

theorem to_uint_size_t_store_uint (obj v : Nat) : to_uint (size_t_store_uint obj v) = to_uint v := by
  unfold to_uint size_t_store_uint
  rw [Nat.add_comm, Nat.add_mul_mod_self_right, Nat.mod_mod]

theorem size_t_store_load (obj : Nat) : size_t_store_uint obj (size_t_load_uint obj) = obj := by
  unfold size_t_store_uint size_t_load_uint
  rw [Nat.mod_mod, Nat.div_add_mod']

theorem size_t_store_uint_to_uint (obj v : Nat) :
    size_t_store_uint obj (to_uint v) = size_t_store_uint obj v := by
  unfold size_t_store_uint to_uint
  rw [Nat.mod_mod]

/-- What `zcomp_zstd_compress` does once the global `ctx` addresses a live
structure `c`. -/
theorem compress_of_load {E : Engine} {s : KState} {c : zstd_ctx} (h : load s s.ctx = .ok c)
    (src dst : List u8) (n priv : Nat) :
    zcomp_zstd_compress E s src dst n priv =
      .ok (if E.ZSTD_isError
              (E.ZSTD_compressCCtx c.cctx dst (size_t_load_uint n) src PAGE_SIZE (zstd_params E)).1
        then ⟨-EINVAL,
          (E.ZSTD_compressCCtx c.cctx dst (size_t_load_uint n) src PAGE_SIZE (zstd_params E)).2,
          n, ⟨c.cctx, size_t_load_uint n, PAGE_SIZE, some (zstd_params E)⟩⟩
        else ⟨0,
          (E.ZSTD_compressCCtx c.cctx dst (size_t_load_uint n) src PAGE_SIZE (zstd_params E)).2,
          size_t_store_uint n
            (E.ZSTD_compressCCtx c.cctx dst (size_t_load_uint n) src PAGE_SIZE (zstd_params E)).1,
          ⟨c.cctx, size_t_load_uint n, PAGE_SIZE, some (zstd_params E)⟩⟩) := by
  simp only [zcomp_zstd_compress, __zstd_compress, h, to_uint_PAGE_SIZE]
  split_ifs <;> simp only [size_t_store_load, size_t_store_uint_to_uint]

/-- What `zcomp_zstd_decompress` does once the global `ctx` addresses a live
structure `c`. -/
theorem decompress_of_load {E : Engine} {s : KState} {c : zstd_ctx} (h : load s s.ctx = .ok c)
    (src : List u8) (src_len : Nat) (dst : List u8) :
    zcomp_zstd_decompress E s src src_len dst =
      .ok (if E.ZSTD_isError
              (E.ZSTD_decompressDCtx c.dctx dst PAGE_SIZE src (to_uint src_len)).1
        then ⟨-EINVAL, (E.ZSTD_decompressDCtx c.dctx dst PAGE_SIZE src (to_uint src_len)).2,
          PAGE_SIZE, ⟨c.dctx, PAGE_SIZE, to_uint src_len, none⟩⟩
        else ⟨0, (E.ZSTD_decompressDCtx c.dctx dst PAGE_SIZE src (to_uint src_len)).2,
          size_t_store_uint PAGE_SIZE
            (E.ZSTD_decompressDCtx c.dctx dst PAGE_SIZE src (to_uint src_len)).1,
          ⟨c.dctx, PAGE_SIZE, to_uint src_len, none⟩⟩) := by
  simp only [zcomp_zstd_decompress, __zstd_decompress, h, size_t_load_uint_PAGE_SIZE]
  split_ifs <;> simp only [size_t_store_uint_to_uint, size_t_store_uint_PAGE_SIZE]

/-! ## C1: round trip through the facade -/

theorem to_uint_of_lt {v : Nat} (h : v < UINT_MOD) : to_uint v = v := Nat.mod_eq_of_lt h

theorem storeEngine_lossless : Lossless storeEngine := by
  intro cctx dctx dst cap src p out dcap _ _ hne hcap
  by_cases hle : src.length ≤ cap
  · simp only [storeEngine, if_pos hle, if_pos hcap] at hne ⊢
    exact ⟨hle, hne, by simp⟩
  · simp [storeEngine, hle, SIZE_MOD] at hne

theorem length_zeroPage : zeroPage.length = PAGE_SIZE := List.length_replicate _ _

theorem length_pageA : pageA.length = PAGE_SIZE := List.length_replicate _ _

/-- The store-only engine compressing a page into a buffer that starts with a
page of room. -/
theorem storeEngine_compress_page (cctx : Ptr) (src rest : List u8) (cap : Nat)
    (p : ZSTD_parameters) (hs : src.length = PAGE_SIZE) (hcap : PAGE_SIZE ≤ cap) :
    storeEngine.ZSTD_compressCCtx cctx (zeroPage ++ rest) cap src PAGE_SIZE p =
      (PAGE_SIZE, src ++ rest) := by
  simp only [storeEngine, if_pos hcap]
  rw [List.take_of_length_le (le_of_eq hs), List.drop_left' length_zeroPage]

/-- C1. Round trip through the facade: on a state whose global `ctx` addresses
a fully created instance, with a lossless engine pair, for every page-sized
byte sequence `p`, every destination buffer, every prior content `n` of the
length object and every handle argument, if `zcomp_zstd_compress` returns 0
then `zcomp_zstd_decompress` on the produced buffer and length returns 0 and
the first `PAGE_SIZE` bytes of its output are `p`. -/
theorem C1_round_trip (E : Engine) (hE : Lossless E) (s : KState) (hcr : Created s s.ctx)
    (p dst out : List u8) (n priv : Nat) (hp : p.length = PAGE_SIZE) (r : Xform)
    (hcomp : zcomp_zstd_compress E s p dst n priv = .ok r) (hret : r.ret = 0) :
    ∃ r2, zcomp_zstd_decompress E s r.dst r.dlen out = .ok r2 ∧ r2.ret = 0 ∧
      r2.dst.take PAGE_SIZE = p := by
  obtain ⟨c, hload, hc, hd⟩ := hcr
  rw [compress_of_load hload] at hcomp
  have hr := (Except.ok.inj hcomp).symm
  by_cases herr : E.ZSTD_isError
      (E.ZSTD_compressCCtx c.cctx dst (size_t_load_uint n) p PAGE_SIZE (zstd_params E)).1 = true
  · rw [if_pos herr] at hr
    rw [hr] at hret
    simp [EINVAL] at hret
  · rw [if_neg herr] at hr
    have hne : E.ZSTD_isError
        (E.ZSTD_compressCCtx c.cctx dst (size_t_load_uint n) p p.length (zstd_params E)).1
          = false := by
      rw [hp]; exact Bool.eq_false_iff.mpr herr
    have hL := hE c.cctx c.dctx dst (size_t_load_uint n) p (zstd_params E) out PAGE_SIZE hc hd hne
      (le_of_eq hp)
    rw [hp] at hL
    obtain ⟨hcap, hdec, hbytes⟩ := hL
    have hlen : to_uint (size_t_store_uint n
        (E.ZSTD_compressCCtx c.cctx dst (size_t_load_uint n) p PAGE_SIZE (zstd_params E)).1) =
        (E.ZSTD_compressCCtx c.cctx dst (size_t_load_uint n) p PAGE_SIZE (zstd_params E)).1 := by
      rw [to_uint_size_t_store_uint]
      exact to_uint_of_lt (lt_of_le_of_lt hcap (size_t_load_uint_lt n))
    rw [decompress_of_load hload, hr]
    simp only [hlen, hdec]
    exact ⟨_, rfl, rfl, hbytes⟩

theorem load_oneInstance : load oneInstance oneInstance.ctx = .ok ⟨2, 3, 2, 3⟩ := by decide

/-- C1, on a concrete input: the page of `'A'` through the store-only engine on
the instance created from `boot`, into a two-page buffer whose length object
held `2 * PAGE_SIZE`. -/
theorem C1_round_trip_witness :
    ∃ r2, zcomp_zstd_decompress storeEngine oneInstance (pageA ++ zeroPage) PAGE_SIZE zeroPage
        = .ok r2 ∧
      r2.ret = 0 ∧ r2.dst.take PAGE_SIZE = pageA :=
  C1_round_trip storeEngine storeEngine_lossless oneInstance
    ⟨⟨2, 3, 2, 3⟩, load_oneInstance, by decide, by decide⟩
    pageA twoPages zeroPage (2 * PAGE_SIZE) 1 length_pageA
    ⟨0, pageA ++ zeroPage, PAGE_SIZE, ⟨2, 2 * PAGE_SIZE, PAGE_SIZE, some (zstd_params storeEngine)⟩⟩
    (by
      have h2 : size_t_load_uint (2 * PAGE_SIZE) = 2 * PAGE_SIZE := by decide
      have h3 : size_t_store_uint (2 * PAGE_SIZE) PAGE_SIZE = PAGE_SIZE := by decide
      have h4 : storeEngine.ZSTD_isError PAGE_SIZE = false := by decide
      rw [compress_of_load load_oneInstance, h2, twoPages,
        storeEngine_compress_page 2 pageA zeroPage _ _ length_pageA (by decide)]
      simp only [h3, h4]
      rfl)
    rfl

/-! ## C6: a full lifecycle leaks nothing -/

/-- The state `zcomp_zstd_create` leaves when the structure and both workspaces
are allocated and both initialisers accept. -/
theorem create_all_ok (E : Engine) (hE : InitsSucceed E) (o : AllocOutcomes)
    (hk : o.kzalloc = true ∨ o.vmalloc = true) (hc : o.cwksp = true) (hd : o.dwksp = true)
    (s : KState) :
    zcomp_zstd_create E o s = .ok (s.next + 1,
      ⟨s.next + 1,
       (s.next + 1,
         ⟨E.ZSTD_initCCtx (s.next + 2) (E.ZSTD_CCtxWorkspaceBound (zstd_params E).cParams),
          E.ZSTD_initDCtx (s.next + 3) E.ZSTD_DCtxWorkspaceBound,
          s.next + 2, s.next + 3⟩) :: s.objs,
       (s.next + 3) :: (s.next + 2) :: (s.next + 1) :: s.live,
       s.next + 3, s.badFrees⟩) := by
  have h1 := (hE (s.next + 2) (Nat.succ_ne_zero _)).1
  have h2 := (hE (s.next + 3) (Nat.succ_ne_zero _)).2
  rcases hk with hk | hk <;> cases hko : o.kzalloc <;>
    simp_all [zcomp_zstd_create, kzalloc, __vmalloc, acquire, vzalloc, __zstd_init, zstd_comp_init,
      zstd_decomp_init, load, store, setObj, List.lookup, zstd_ctx_zero]

/-- What `zcomp_zstd_destroy` does to an instance whose structure and two
workspaces are the three most recent live allocations. -/
theorem destroy_created (g h cc dc cw dw nx : Nat) (objs : List (Ptr × zstd_ctx))
    (live bf : List Ptr) (hh : h ≠ 0) (hcw : cw ≠ 0) (hdw : dw ≠ 0) (h1 : dw ≠ cw)
    (h2 : dw ≠ h) (h3 : cw ≠ h) :
    zcomp_zstd_destroy h ⟨g, (h, ⟨cc, dc, cw, dw⟩) :: objs, dw :: cw :: h :: live, nx, bf⟩ =
      .ok ⟨0, objs, live, nx, bf⟩ := by
  simp [zcomp_zstd_destroy, zstd_comp_exit, zstd_decomp_exit, kvfree, vfree, load, store, setObj,
    dropObj, List.lookup, hh, hcw, hdw, h1, h2, h3, Ne.symm h1, Ne.symm h2, Ne.symm h3]

theorem create_destroy_all_ok (E : Engine) (hE : InitsSucceed E) (o : AllocOutcomes)
    (hk : o.kzalloc = true ∨ o.vmalloc = true) (hc : o.cwksp = true) (hd : o.dwksp = true)
    (s : KState) :
    create_destroy E o s = .ok { s with ctx := 0, next := s.next + 3 } := by
  unfold create_destroy
  rw [create_all_ok E hE o hk hc hd s]
  exact destroy_created _ _ _ _ _ _ _ _ _ _ (Nat.succ_ne_zero _) (Nat.succ_ne_zero _)
    (Nat.succ_ne_zero _) (by omega) (by omega) (by omega)

theorem create_destroy_loop_succ (E : Engine) (hE : InitsSucceed E) (o : AllocOutcomes)
    (hk : o.kzalloc = true ∨ o.vmalloc = true) (hc : o.cwksp = true) (hd : o.dwksp = true)
    (n : Nat) (s : KState) :
    create_destroy_loop E o (n + 1) s = .ok { s with ctx := 0, next := s.next + 3 * (n + 1) } := by
  induction n generalizing s with
  | zero =>
    simp only [create_destroy_loop, create_destroy_all_ok E hE o hk hc hd s]
  | succ k ih =>
    rw [create_destroy_loop, create_destroy_all_ok E hE o hk hc hd s]
    simp only [ih]
    congr 2
    show s.next + 3 + 3 * (k + 1) = s.next + 3 * (k + 1 + 1)
    omega

/-- C6. No leak across a full lifecycle: when the structure allocation, both
workspace allocations and both engine initialisers succeed (each initialiser on
a workspace of the bound `create` sizes it with), `zcomp_zstd_create`
acquires exactly the structure and the two workspaces recorded in it, the
following `zcomp_zstd_destroy` releases all three without a bad free, leaving
the live set, the stored objects and the bad-free record as before `create` and
the global `ctx` `NULL`; and `n` create/destroy iterations (`n ≥ 1`, in
particular 1000) leave the state as it was except for `ctx = NULL` and the
address counter. -/
theorem C6_lifecycle_no_leak (E : Engine) (hE : InitsSucceed E) (o : AllocOutcomes)
    (hk : o.kzalloc = true ∨ o.vmalloc = true) (hc : o.cwksp = true) (hd : o.dwksp = true)
    (s : KState) (n : Nat) :
    (∃ h s1 c, zcomp_zstd_create E o s = .ok (h, s1) ∧ load s1 h = .ok c ∧
      s1.live = c.dwksp :: c.cwksp :: h :: s.live ∧
      zcomp_zstd_destroy h s1 = .ok { s with ctx := 0, next := s.next + 3 }) ∧
    create_destroy_loop E o (n + 1) s =
      .ok { s with ctx := 0, next := s.next + 3 * (n + 1) } := by
  refine ⟨?_, create_destroy_loop_succ E hE o hk hc hd n s⟩
  refine ⟨_, _,
    ⟨E.ZSTD_initCCtx (s.next + 2) (E.ZSTD_CCtxWorkspaceBound (zstd_params E).cParams),
      E.ZSTD_initDCtx (s.next + 3) E.ZSTD_DCtxWorkspaceBound, s.next + 2, s.next + 3⟩,
    create_all_ok E hE o hk hc hd s, ?_, rfl, ?_⟩
  · simp [load, List.lookup]
  · exact destroy_created _ _ _ _ _ _ _ _ _ _ (Nat.succ_ne_zero _) (Nat.succ_ne_zero _)
      (Nat.succ_ne_zero _) (by omega) (by omega) (by omega)

theorem storeEngine_inits : InitsSucceed storeEngine := fun _ hw => ⟨hw, hw⟩

/-- The size-checking engine accepts the workspaces `create` hands it, and
rejects a workspace that is too small. -/
theorem sizingEngine_inits :
    InitsSucceed sizingEngine ∧ sizingEngine.ZSTD_initCCtx 2 0 = 0 ∧
      sizingEngine.ZSTD_initDCtx 3 63 = 0 :=
  ⟨fun _ hw => ⟨hw, hw⟩, rfl, rfl⟩

/-- C6, on a concrete input: 1000 create/destroy iterations from `boot` with
the size-checking engine and every allocation succeeding. -/
theorem C6_lifecycle_no_leak_witness :
    (∃ h s1 c, zcomp_zstd_create sizingEngine allOk boot = .ok (h, s1) ∧ load s1 h = .ok c ∧
      s1.live = c.dwksp :: c.cwksp :: h :: boot.live ∧
      zcomp_zstd_destroy h s1 = .ok { boot with ctx := 0, next := boot.next + 3 }) ∧
    create_destroy_loop sizingEngine allOk (999 + 1) boot =
      .ok { boot with ctx := 0, next := boot.next + 3 * (999 + 1) } :=
  C6_lifecycle_no_leak sizingEngine sizingEngine_inits.1 allOk (Or.inl rfl) rfl rfl boot 999

/-! ## C2: `create` when engine construction fails -/

/-- C2, the code at the failing input: from `boot`, with the structure
allocated and the compression workspace allocation failing, `__zstd_init`
returns `-ENOMEM` and `zcomp_zstd_create` still returns the non-NULL handle `1`
and publishes it in `ctx`, its structure holding no engine context at all; the
same happens when the engine initialiser rejects the workspace (then the
released workspace `2` stays recorded in `cwksp`). -/
theorem C2_create_returns_half_created :
    __zstd_init storeEngine cwkspFails 1 (kzalloc true boot).2 =
      .ok (-ENOMEM, ⟨0, [(1, ⟨0, 0, 0, 0⟩)], [1], 1, []⟩) ∧
    zcomp_zstd_create storeEngine cwkspFails boot =
      .ok (1, ⟨1, [(1, ⟨0, 0, 0, 0⟩)], [1], 1, []⟩) ∧
    zcomp_zstd_create rejectEngine allOk boot =
      .ok (1, ⟨1, [(1, ⟨0, 0, 2, 0⟩)], [1], 2, []⟩) := by
  decide

/-! ## C3, C4: which instance a transform runs on -/

theorem load_twoInstances : load twoInstances twoInstances.ctx = .ok ⟨5, 6, 5, 6⟩ := by decide

/-- A transform with the global `ctx` `NULL` faults at the context read. -/
theorem compress_of_null (E : Engine) (s : KState) (h : s.ctx = 0) (src dst : List u8)
    (n priv : Nat) : zcomp_zstd_compress E s src dst n priv = .error .null_deref := by
  simp [zcomp_zstd_compress, __zstd_compress, load, h]

theorem decompress_of_null (E : Engine) (s : KState) (h : s.ctx = 0) (src : List u8)
    (src_len : Nat) (dst : List u8) :
    zcomp_zstd_decompress E s src src_len dst = .error .null_deref := by
  simp [zcomp_zstd_decompress, __zstd_decompress, load, h]

/-- C3, the code at the failing input: after `create` of A (handle `1`,
contexts `2` and `3`) and `create` of B (handle `4`, contexts `5` and `6`),
both live, `zcomp_zstd_compress` called with A's handle hands the engine B's
compression context `5`, and `zcomp_zstd_decompress` hands it B's
decompression context `6`. -/
theorem C3_transforms_run_on_latest_instance :
    zcomp_zstd_create storeEngine allOk boot = .ok (1, oneInstance) ∧
    zcomp_zstd_create storeEngine allOk oneInstance = .ok (4, twoInstances) ∧
    load twoInstances 1 = .ok ⟨2, 3, 2, 3⟩ ∧
    (zcomp_zstd_compress storeEngine twoInstances pageA twoPages (2 * PAGE_SIZE) 1).map
      (fun r => r.call.ctxp) = .ok 5 ∧
    (zcomp_zstd_decompress storeEngine twoInstances (pageA ++ zeroPage) PAGE_SIZE zeroPage).map
      (fun r => r.call.ctxp) = .ok 6 := by
  refine ⟨by decide, by decide, by decide, ?_, ?_⟩
  · rw [compress_of_load load_twoInstances]
    simp only [Except.map]
    split_ifs <;> rfl
  · rw [decompress_of_load load_twoInstances]
    simp only [Except.map]
    split_ifs <;> rfl

/-- C4, the code at the failing input: after `create` A, `create` B,
`destroy` B the structure of A is intact, yet `zcomp_zstd_compress` on A reads
the global `ctx`, which `destroy` of B set to `NULL`, and faults; had B never
existed the same call returns 0. -/
theorem C4_destroy_of_other_instance_breaks_compress :
    zcomp_zstd_destroy 4 twoInstances = .ok afterDestroyB ∧
    load afterDestroyB 1 = .ok ⟨2, 3, 2, 3⟩ ∧
    zcomp_zstd_compress storeEngine afterDestroyB pageA twoPages (2 * PAGE_SIZE) 1 =
      .error .null_deref ∧
    (zcomp_zstd_compress storeEngine oneInstance pageA twoPages (2 * PAGE_SIZE) 1).map
      (fun r => r.ret) = .ok 0 := by
  refine ⟨by decide, by decide, compress_of_null _ _ rfl _ _ _ _, ?_⟩
  have h2 : size_t_load_uint (2 * PAGE_SIZE) = 2 * PAGE_SIZE := by decide
  have h4 : storeEngine.ZSTD_isError PAGE_SIZE = false := by decide
  rw [compress_of_load load_oneInstance, h2, twoPages,
    storeEngine_compress_page 2 pageA zeroPage _ _ length_pageA (by decide)]
  simp only [h4]
  rfl

/-! ## C5: the decoded length on success -/

theorem size_t_store_uint_PAGE_SIZE_le {v : Nat} (h : v ≤ PAGE_SIZE) :
    size_t_store_uint PAGE_SIZE v = v := by
  have h1 : PAGE_SIZE / UINT_MOD = 0 := by decide
  have h2 : v < UINT_MOD := lt_of_le_of_lt h (by decide)
  unfold size_t_store_uint
  rw [h1, Nat.zero_mul, Nat.zero_add, Nat.mod_eq_of_lt h2]

/-- C5, refuted as stated: on the instance created from `boot`, a three-byte
stream that the store-only engine decodes to three bytes (no error) makes
`zcomp_zstd_decompress` return 0, the local `dst_len` holding 3, not
`PAGE_SIZE`. -/
theorem C5_short_decode_is_success :
    (storeEngine.ZSTD_decompressDCtx 3 zeroPage PAGE_SIZE [1, 2, 3] 3).1 = 3 ∧
    storeEngine.ZSTD_isError 3 = false ∧
    (zcomp_zstd_decompress storeEngine oneInstance [1, 2, 3] 3 zeroPage).map
      (fun r => (r.ret, r.dlen)) = .ok (0, 3) ∧
    3 ≠ PAGE_SIZE := by
  have h3 : to_uint 3 = 3 := by decide
  have he : (storeEngine.ZSTD_decompressDCtx 3 zeroPage PAGE_SIZE [1, 2, 3] 3).1 = 3 := by
    simp only [storeEngine, if_pos (show 3 ≤ PAGE_SIZE by decide)]
  refine ⟨he, by decide, ?_, by decide⟩
  rw [decompress_of_load load_oneInstance, h3, he]
  simp only [show storeEngine.ZSTD_isError 3 = false by decide]
  rfl

/-- C5, amended: whenever `zcomp_zstd_decompress` returns 0, the global `ctx`
addresses a live structure, the engine result is not an error, the local
`dst_len` holds that result, and, for an engine that reports no decoded length
above the capacity it was given, that length is at most `PAGE_SIZE`. -/
theorem C5_success_decodes_within_page (E : Engine) (hE : DecodeWithinCapacity E) (s : KState)
    (src : List u8) (src_len : Nat) (dst : List u8) (r : Xform)
    (h : zcomp_zstd_decompress E s src src_len dst = .ok r) (hret : r.ret = 0) :
    ∃ c, load s s.ctx = .ok c ∧
      E.ZSTD_isError (E.ZSTD_decompressDCtx c.dctx dst PAGE_SIZE src (to_uint src_len)).1 = false ∧
      r.dlen = (E.ZSTD_decompressDCtx c.dctx dst PAGE_SIZE src (to_uint src_len)).1 ∧
      r.dlen ≤ PAGE_SIZE := by
  cases hl : load s s.ctx with
  | error e => simp [zcomp_zstd_decompress, __zstd_decompress, hl] at h
  | ok c =>
    rw [decompress_of_load hl] at h
    have hr := (Except.ok.inj h).symm
    by_cases herr : E.ZSTD_isError
        (E.ZSTD_decompressDCtx c.dctx dst PAGE_SIZE src (to_uint src_len)).1 = true
    · rw [if_pos herr] at hr
      rw [hr] at hret
      simp [EINVAL] at hret
    · rw [if_neg herr] at hr
      have hne := Bool.eq_false_iff.mpr herr
      have hle := hE _ _ _ _ _ hne
      have hd : r.dlen = (E.ZSTD_decompressDCtx c.dctx dst PAGE_SIZE src (to_uint src_len)).1 := by
        rw [hr]
        exact size_t_store_uint_PAGE_SIZE_le hle
      exact ⟨c, rfl, hne, hd, hd ▸ hle⟩

theorem storeEngine_decodes_within : DecodeWithinCapacity storeEngine := by
  intro dctx dst cap src n hne
  by_cases hle : n ≤ cap
  · simp only [storeEngine, if_pos hle]
    exact hle
  · simp [storeEngine, hle, SIZE_MOD] at hne

/-- C5 amended, on a concrete input: the three-byte stream on the instance
created from `boot`. -/
theorem C5_success_decodes_within_page_witness :
    ∃ c, load oneInstance oneInstance.ctx = .ok c ∧
      storeEngine.ZSTD_isError
        (storeEngine.ZSTD_decompressDCtx c.dctx zeroPage PAGE_SIZE [1, 2, 3] (to_uint 3)).1
          = false ∧
      (3 : Nat) = (storeEngine.ZSTD_decompressDCtx c.dctx zeroPage PAGE_SIZE [1, 2, 3]
        (to_uint 3)).1 ∧
      3 ≤ PAGE_SIZE :=
  C5_success_decodes_within_page storeEngine storeEngine_decodes_within oneInstance [1, 2, 3] 3
    zeroPage ⟨0, [1, 2, 3] ++ zeroPage.drop 3, 3, ⟨3, PAGE_SIZE, 3, none⟩⟩
    (by
      have h3 : to_uint 3 = 3 := by decide
      have he : storeEngine.ZSTD_decompressDCtx 3 zeroPage PAGE_SIZE [1, 2, 3] 3 =
          (3, [1, 2, 3] ++ zeroPage.drop 3) := by
        simp only [storeEngine, if_pos (show 3 ≤ PAGE_SIZE by decide)]
        rfl
      rw [decompress_of_load load_oneInstance, h3, he]
      simp only [show storeEngine.ZSTD_isError 3 = false by decide]
      rfl)
    rfl

/-! ## C7: transforms outside the `Created` state -/

/-- C7, refuted as stated: before any `create` (global `ctx` is `NULL`) the
transforms return no `int` at all: each call faults at the read of the context
through the `NULL` pointer. -/
theorem C7_null_ctx_is_a_fault :
    boot.ctx = 0 ∧
    zcomp_zstd_compress storeEngine boot pageA twoPages (2 * PAGE_SIZE) 0 = .error .null_deref ∧
    zcomp_zstd_decompress storeEngine boot (pageA ++ zeroPage) PAGE_SIZE zeroPage =
      .error .null_deref ∧
    ¬ ∃ r, zcomp_zstd_compress storeEngine boot pageA twoPages (2 * PAGE_SIZE) 0 = .ok r := by
  refine ⟨rfl, compress_of_null _ _ rfl _ _ _ _, decompress_of_null _ _ rfl _ _ _, ?_⟩
  rintro ⟨r, hr⟩
  rw [compress_of_null _ _ rfl] at hr
  exact Except.noConfusion hr

/-- C7, amended: with the global `ctx` `NULL` (before any `create`, or after a
`destroy`) `zcomp_zstd_compress` and `zcomp_zstd_decompress` have no guard:
for every input the call faults at the read of the context through `NULL`,
before the engine is invoked, so it reports neither success nor an error
code. -/
theorem C7_null_ctx_faults (E : Engine) (s : KState) (h : s.ctx = 0) (src dst : List u8)
    (n priv src_len : Nat) :
    zcomp_zstd_compress E s src dst n priv = .error .null_deref ∧
    zcomp_zstd_decompress E s src src_len dst = .error .null_deref :=
  ⟨compress_of_null E s h src dst n priv, decompress_of_null E s h src src_len dst⟩

/-- C7 amended, on a concrete input: the state a `destroy` leaves. -/
theorem C7_null_ctx_faults_witness :
    zcomp_zstd_compress storeEngine afterDestroyB pageA twoPages (2 * PAGE_SIZE) 1 =
      .error .null_deref ∧
    zcomp_zstd_decompress storeEngine afterDestroyB pageA PAGE_SIZE twoPages =
      .error .null_deref :=
  C7_null_ctx_faults storeEngine afterDestroyB rfl pageA twoPages (2 * PAGE_SIZE) 1 PAGE_SIZE

/-! ## C8: engine errors and the returned `int` -/

/-- C8. Engine errors map to one sentinel: when the global `ctx` addresses a
live structure, `zcomp_zstd_compress` and `zcomp_zstd_decompress` return, the
returned `int` is 0 exactly when `ZSTD_isError` of the engine result is false,
and it is `-EINVAL` for every engine result that is an error. -/
theorem C8_engine_errors_map_to_EINVAL (E : Engine) (s : KState) (c : zstd_ctx)
    (hload : load s s.ctx = .ok c) (src dst : List u8) (n priv src_len : Nat) :
    (∃ r, zcomp_zstd_compress E s src dst n priv = .ok r ∧
      (r.ret = 0 ↔ E.ZSTD_isError (E.ZSTD_compressCCtx c.cctx dst (size_t_load_uint n) src
          (to_uint PAGE_SIZE) (zstd_params E)).1 = false) ∧
      (E.ZSTD_isError (E.ZSTD_compressCCtx c.cctx dst (size_t_load_uint n) src
          (to_uint PAGE_SIZE) (zstd_params E)).1 = true → r.ret = -EINVAL)) ∧
    (∃ r, zcomp_zstd_decompress E s src src_len dst = .ok r ∧
      (r.ret = 0 ↔ E.ZSTD_isError (E.ZSTD_decompressDCtx c.dctx dst
          (size_t_load_uint PAGE_SIZE) src (to_uint src_len)).1 = false) ∧
      (E.ZSTD_isError (E.ZSTD_decompressDCtx c.dctx dst
          (size_t_load_uint PAGE_SIZE) src (to_uint src_len)).1 = true → r.ret = -EINVAL)) := by
  rw [to_uint_PAGE_SIZE, size_t_load_uint_PAGE_SIZE]
  constructor
  · refine ⟨_, compress_of_load hload src dst n priv, ?_, ?_⟩
    · split_ifs with h <;> simp [h, EINVAL]
    · intro h
      rw [if_pos h]
  · refine ⟨_, decompress_of_load hload src src_len dst, ?_, ?_⟩
    · split_ifs with h <;> simp [h, EINVAL]
    · intro h
      rw [if_pos h]

/-- C8, on a concrete input: the page of `'A'` on the instance created from
`boot`, with the store-only engine. -/
theorem C8_engine_errors_map_to_EINVAL_witness :
    (∃ r, zcomp_zstd_compress storeEngine oneInstance pageA twoPages (2 * PAGE_SIZE) 1 = .ok r ∧
      (r.ret = 0 ↔ storeEngine.ZSTD_isError (storeEngine.ZSTD_compressCCtx 2 twoPages
          (size_t_load_uint (2 * PAGE_SIZE)) pageA (to_uint PAGE_SIZE)
          (zstd_params storeEngine)).1 = false) ∧
      (storeEngine.ZSTD_isError (storeEngine.ZSTD_compressCCtx 2 twoPages
          (size_t_load_uint (2 * PAGE_SIZE)) pageA (to_uint PAGE_SIZE)
          (zstd_params storeEngine)).1 = true → r.ret = -EINVAL)) ∧
    (∃ r, zcomp_zstd_decompress storeEngine oneInstance pageA PAGE_SIZE twoPages = .ok r ∧
      (r.ret = 0 ↔ storeEngine.ZSTD_isError (storeEngine.ZSTD_decompressDCtx 3 twoPages
          (size_t_load_uint PAGE_SIZE) pageA (to_uint PAGE_SIZE)).1 = false) ∧
      (storeEngine.ZSTD_isError (storeEngine.ZSTD_decompressDCtx 3 twoPages
          (size_t_load_uint PAGE_SIZE) pageA (to_uint PAGE_SIZE)).1 = true → r.ret = -EINVAL)) :=
  C8_engine_errors_map_to_EINVAL storeEngine oneInstance ⟨2, 3, 2, 3⟩ load_oneInstance pageA
    twoPages (2 * PAGE_SIZE) 1 PAGE_SIZE

/-! ## C9: the length left in `*dst_len` -/

/-- C9, the code at the failing input: on the instance created from `boot`,
with the length object holding `2 ^ 32 + 2 * PAGE_SIZE` before the call, the
engine is given the capacity `2 * PAGE_SIZE`, writes `PAGE_SIZE` bytes, the
call returns 0, and the `size_t` object then holds `2 ^ 32 + PAGE_SIZE`: only
its low half was overwritten. -/
theorem C9_store_keeps_high_half :
    (storeEngine.ZSTD_compressCCtx 2 twoPages (2 * PAGE_SIZE) pageA PAGE_SIZE
      (zstd_params storeEngine)).1 = PAGE_SIZE ∧
    zcomp_zstd_compress storeEngine oneInstance pageA twoPages (UINT_MOD + 2 * PAGE_SIZE) 1 =
      .ok ⟨0, pageA ++ zeroPage, UINT_MOD + PAGE_SIZE,
        ⟨2, 2 * PAGE_SIZE, PAGE_SIZE, some (zstd_params storeEngine)⟩⟩ ∧
    UINT_MOD + PAGE_SIZE ≠ PAGE_SIZE := by
  have he := storeEngine_compress_page 2 pageA zeroPage (2 * PAGE_SIZE)
    (zstd_params storeEngine) length_pageA (by decide)
  have h2 : size_t_load_uint (UINT_MOD + 2 * PAGE_SIZE) = 2 * PAGE_SIZE := by decide
  have h3 : size_t_store_uint (UINT_MOD + 2 * PAGE_SIZE) PAGE_SIZE = UINT_MOD + PAGE_SIZE := by
    decide
  have h4 : storeEngine.ZSTD_isError PAGE_SIZE = false := by decide
  refine ⟨?_, ?_, by decide⟩
  · rw [twoPages, he]
  · rw [compress_of_load load_oneInstance, h2, twoPages, he]
    simp only [h3, h4]
    rfl

/-! ## C10: the capacity handed to the decompressor -/

/-- C10. When the global `ctx` addresses a live structure, for every `src`,
`src_len` and `dst`, `zcomp_zstd_decompress` returns, the engine call it made
was given the output capacity `PAGE_SIZE` exactly (and the `dctx` of that
structure, and `src_len` as an `unsigned int`), and whenever the engine result
of that call is an error the returned `int` is `-EINVAL`, which is not 0. -/
theorem C10_decompress_capacity_is_page (E : Engine) (s : KState) (c : zstd_ctx)
    (hload : load s s.ctx = .ok c) (src : List u8) (src_len : Nat) (dst : List u8) :
    ∃ r, zcomp_zstd_decompress E s src src_len dst = .ok r ∧
      r.call = ⟨c.dctx, PAGE_SIZE, to_uint src_len, none⟩ ∧
      (E.ZSTD_isError (E.ZSTD_decompressDCtx r.call.ctxp dst r.call.dstCapacity src
          r.call.srcSize).1 = true → r.ret = -EINVAL ∧ r.ret ≠ 0) := by
  refine ⟨_, decompress_of_load hload src src_len dst, ?_, ?_⟩
  · split_ifs <;> rfl
  · split_ifs with h
    · intro _
      exact ⟨rfl, by simp [EINVAL]⟩
    · intro h1
      exact absurd h1 h

/-- C10, on a concrete input: a stream longer than a page on the instance
created from `boot`, which the store-only engine rejects. -/
theorem C10_decompress_capacity_is_page_witness :
    ∃ r, zcomp_zstd_decompress storeEngine oneInstance twoPages (2 * PAGE_SIZE) zeroPage = .ok r ∧
      r.call = ⟨3, PAGE_SIZE, to_uint (2 * PAGE_SIZE), none⟩ ∧
      (storeEngine.ZSTD_isError (storeEngine.ZSTD_decompressDCtx r.call.ctxp zeroPage
          r.call.dstCapacity twoPages r.call.srcSize).1 = true → r.ret = -EINVAL ∧ r.ret ≠ 0) :=
  C10_decompress_capacity_is_page storeEngine oneInstance ⟨2, 3, 2, 3⟩ load_oneInstance twoPages
    (2 * PAGE_SIZE) zeroPage

/-! ## C11: two fresh instances give the same output -/

/-- C12, the code at the failing input: from `boot` with every allocation
succeeding, when `ZSTD_initCCtx` rejects the workspace `2`, or `ZSTD_initDCtx`
rejects the workspace `3`, `zcomp_zstd_create` followed by
`zcomp_zstd_destroy` of the returned handle releases that workspace a second
time (it is recorded as a bad free). -/
theorem C12_rejected_workspace_is_released_twice :
    create_destroy rejectEngine allOk boot = .ok ⟨0, [], [], 2, [2]⟩ ∧
    create_destroy rejectDEngine allOk boot = .ok ⟨0, [], [], 3, [3]⟩ := by
  decide

/-! ## C13: cleanup in `__zstd_init` after a partial construction -/

theorem lookup_setObj (p : Ptr) (c : zstd_ctx) (objs : List (Ptr × zstd_ctx))
    (h : (objs.lookup p).isSome = true) : (setObj p c objs).lookup p = some c := by
  induction objs with
  | nil => simp [List.lookup] at h
  | cons hd tl ih =>
    obtain ⟨q, d⟩ := hd
    by_cases hq : q = p
    · simp [setObj, hq, List.lookup]
    · have hpq : (p == q) = false := by simpa using Ne.symm hq
      simp only [setObj, if_neg hq, List.lookup, hpq] at h ⊢
      exact ih h

theorem load_ok_iff (s : KState) (p : Ptr) (c : zstd_ctx) :
    load s p = .ok c ↔ p ≠ 0 ∧ s.objs.lookup p = some c := by
  unfold load
  by_cases hp : p = 0
  · simp [hp]
  · cases hl : s.objs.lookup p <;> simp [hp]

/-- A read after a write to the same live structure gives what was written. -/
theorem load_setObj {s : KState} {p : Ptr} {c0 : zstd_ctx} (hl : load s p = .ok c0)
    (c : zstd_ctx) (g : Ptr) (l : List Ptr) (n : Nat) (b : List Ptr) :
    load ⟨g, setObj p c s.objs, l, n, b⟩ p = .ok c := by
  obtain ⟨hp, hlk⟩ := (load_ok_iff s p c0).mp hl
  exact (load_ok_iff _ p c).mpr ⟨hp, lookup_setObj p c s.objs (by rw [hlk]; rfl)⟩

/-- A read of a live structure after a write to it gives what was written,
whatever else of the state changed. -/
theorem load_of_objs {s s' : KState} {p : Ptr} {c0 c : zstd_ctx} (hl : load s p = .ok c0)
    (h : s'.objs = setObj p c s.objs) : load s' p = .ok c := by
  obtain ⟨hp, hlk⟩ := (load_ok_iff s p c0).mp hl
  refine (load_ok_iff _ p c).mpr ⟨hp, ?_⟩
  rw [h]
  exact lookup_setObj p c s.objs (by rw [hlk]; rfl)

theorem load_of_objs2 {s s' : KState} {p : Ptr} {c0 c c' : zstd_ctx} (hl : load s p = .ok c0)
    (h : s'.objs = setObj p c (setObj p c' s.objs)) : load s' p = .ok c := by
  obtain ⟨hp, hlk⟩ := (load_ok_iff s p c0).mp hl
  refine (load_ok_iff _ p c).mpr ⟨hp, ?_⟩
  rw [h]
  refine lookup_setObj p c _ ?_
  rw [lookup_setObj p c' s.objs (by rw [hlk]; rfl)]
  rfl

theorem load_acquire (ok : Bool) (s : KState) (p : Ptr) : load (acquire ok s).2 p = load s p := by
  cases ok <;> rfl

/-- The initialiser `zstd_comp_init` faults when the structure cannot be read. -/
theorem comp_init_of_fault (E : Engine) (o : AllocOutcomes) {s : KState} {p : Ptr} {e : Fault}
    (hl : load s p = .error e) : zstd_comp_init E o p s = .error e := by
  simp [zstd_comp_init, vzalloc, store, load_acquire, hl]

/-- What `zstd_comp_init` does on a live structure, by outcome. -/
theorem comp_init_of_load (E : Engine) (o : AllocOutcomes) {s : KState} {p : Ptr} {c0 : zstd_ctx}
    (hl : load s p = .ok c0) :
    zstd_comp_init E o p s =
      if o.cwksp = true then
        if E.ZSTD_initCCtx (s.next + 1) (E.ZSTD_CCtxWorkspaceBound (zstd_params E).cParams) = 0 then
          .ok (-EINVAL, ⟨s.ctx,
            setObj p ⟨0, c0.dctx, s.next + 1, c0.dwksp⟩
              (setObj p ⟨c0.cctx, c0.dctx, s.next + 1, c0.dwksp⟩ s.objs),
            s.live, s.next + 1, s.badFrees⟩)
        else
          .ok (0, ⟨s.ctx,
            setObj p ⟨E.ZSTD_initCCtx (s.next + 1)
                (E.ZSTD_CCtxWorkspaceBound (zstd_params E).cParams), c0.dctx, s.next + 1, c0.dwksp⟩
              (setObj p ⟨c0.cctx, c0.dctx, s.next + 1, c0.dwksp⟩ s.objs),
            (s.next + 1) :: s.live, s.next + 1, s.badFrees⟩)
      else .ok (-ENOMEM, ⟨s.ctx, setObj p ⟨c0.cctx, c0.dctx, 0, c0.dwksp⟩ s.objs, s.live, s.next,
        s.badFrees⟩) := by
  obtain ⟨hp, hlk⟩ := (load_ok_iff s p c0).mp hl
  have hs : ∀ c, ((setObj p c s.objs).lookup p).isSome = true := fun c => by
    rw [lookup_setObj p c s.objs (by rw [hlk]; rfl)]; rfl
  cases ho : o.cwksp
  · simp [zstd_comp_init, vzalloc, acquire, store, load, hp, hlk, ho, lookup_setObj]
  · by_cases hi : E.ZSTD_initCCtx (s.next + 1)
        (E.ZSTD_CCtxWorkspaceBound (zstd_params E).cParams) = 0
    · simp [zstd_comp_init, vzalloc, acquire, store, load, hp, hlk, ho, lookup_setObj, hs, hi,
        vfree]
    · simp [zstd_comp_init, vzalloc, acquire, store, load, hp, hlk, ho, lookup_setObj, hs, hi]

/-- What `zstd_decomp_init` does on a live structure, by outcome. -/
theorem decomp_init_of_load (E : Engine) (o : AllocOutcomes) {s : KState} {p : Ptr}
    {c0 : zstd_ctx} (hl : load s p = .ok c0) :
    zstd_decomp_init E o p s =
      if o.dwksp = true then
        if E.ZSTD_initDCtx (s.next + 1) E.ZSTD_DCtxWorkspaceBound = 0 then
          .ok (-EINVAL, ⟨s.ctx,
            setObj p ⟨c0.cctx, 0, c0.cwksp, s.next + 1⟩
              (setObj p ⟨c0.cctx, c0.dctx, c0.cwksp, s.next + 1⟩ s.objs),
            s.live, s.next + 1, s.badFrees⟩)
        else
          .ok (0, ⟨s.ctx,
            setObj p ⟨c0.cctx, E.ZSTD_initDCtx (s.next + 1) E.ZSTD_DCtxWorkspaceBound, c0.cwksp,
                s.next + 1⟩
              (setObj p ⟨c0.cctx, c0.dctx, c0.cwksp, s.next + 1⟩ s.objs),
            (s.next + 1) :: s.live, s.next + 1, s.badFrees⟩)
      else .ok (-ENOMEM, ⟨s.ctx, setObj p ⟨c0.cctx, c0.dctx, c0.cwksp, 0⟩ s.objs, s.live, s.next,
        s.badFrees⟩) := by
  obtain ⟨hp, hlk⟩ := (load_ok_iff s p c0).mp hl
  have hs : ∀ c, ((setObj p c s.objs).lookup p).isSome = true := fun c => by
    rw [lookup_setObj p c s.objs (by rw [hlk]; rfl)]; rfl
  cases ho : o.dwksp
  · simp [zstd_decomp_init, vzalloc, acquire, store, load, hp, hlk, ho, lookup_setObj]
  · by_cases hi : E.ZSTD_initDCtx (s.next + 1) E.ZSTD_DCtxWorkspaceBound = 0
    · simp [zstd_decomp_init, vzalloc, acquire, store, load, hp, hlk, ho, lookup_setObj, hs, hi,
        vfree]
    · simp [zstd_decomp_init, vzalloc, acquire, store, load, hp, hlk, ho, lookup_setObj, hs, hi]

theorem vfree_objs (w : Ptr) (s : KState) : (vfree w s).objs = s.objs := by
  unfold vfree
  split_ifs <;> rfl

theorem load_vfree (w : Ptr) (s : KState) (p : Ptr) : load (vfree w s) p = load s p := by
  unfold load
  rw [vfree_objs]

/-- What `zstd_comp_exit` does on a live structure. -/
theorem comp_exit_of_load {s : KState} {p : Ptr} {c0 : zstd_ctx} (hl : load s p = .ok c0) :
    zstd_comp_exit p s =
      .ok { vfree c0.cwksp s with objs := setObj p ⟨0, c0.dctx, 0, c0.dwksp⟩ s.objs } := by
  simp only [zstd_comp_exit, hl, store, load_vfree, vfree_objs]

/-- C13. Partial-construction cleanup in `__zstd_init`: whenever
`zstd_comp_init` returns 0 and `zstd_decomp_init` then returns a non-zero code
(allocation failure or rejection by `ZSTD_initDCtx`), `__zstd_init` returns
that code, the compression workspace acquired by `zstd_comp_init` has left the
live set again with no bad free recorded (live set and bad-free record are
what they were before the call), and the `cwksp` and `cctx` fields of the
structure are both `NULL`; whenever `zstd_comp_init` itself returns a non-zero
code, `__zstd_init` returns that code and the state `zstd_comp_init` left,
nothing of the decompression side having run. -/
theorem C13_init_cleans_up_partial_construction (E : Engine) (o : AllocOutcomes) (p : Ptr)
    (s : KState) :
    (∀ (s1 s2 : KState) (ret : Int),
      zstd_comp_init E o p s = .ok (0, s1) → zstd_decomp_init E o p s1 = .ok (ret, s2) →
      ret ≠ 0 →
      ∃ s3 c1 c3, __zstd_init E o p s = .ok (ret, s3) ∧
        load s1 p = .ok c1 ∧ c1.cwksp ≠ 0 ∧ s1.live = c1.cwksp :: s.live ∧
        s3.live = s.live ∧ s3.badFrees = s.badFrees ∧
        load s3 p = .ok c3 ∧ c3.cwksp = 0 ∧ c3.cctx = 0) ∧
    (∀ (s1 : KState) (ret : Int),
      zstd_comp_init E o p s = .ok (ret, s1) → ret ≠ 0 →
      __zstd_init E o p s = .ok (ret, s1)) := by
  constructor
  · intro s1 s2 ret hci hdi hret
    have hinit : __zstd_init E o p s =
        (match zstd_comp_exit p s2 with
          | .error e => .error e
          | .ok s3 => .ok (ret, s3)) := by
      simp [__zstd_init, hci, hdi, hret]
    cases hl : load s p with
    | error e =>
      rw [comp_init_of_fault E o hl] at hci
      exact Except.noConfusion hci
    | ok c0 =>
      rw [comp_init_of_load E o hl] at hci
      split_ifs at hci with ho hi
      · simp [EINVAL] at hci
      · obtain ⟨-, hs1⟩ := Prod.mk.inj (Except.ok.inj hci)
        have hl1 : load s1 p = .ok ⟨E.ZSTD_initCCtx (s.next + 1)
            (E.ZSTD_CCtxWorkspaceBound (zstd_params E).cParams), c0.dctx, s.next + 1, c0.dwksp⟩ :=
          load_of_objs2 hl (by rw [← hs1])
        have hlive1 : s1.live = (s.next + 1) :: s.live := by rw [← hs1]
        have hbad1 : s1.badFrees = s.badFrees := by rw [← hs1]
        rw [decomp_init_of_load E o hl1] at hdi
        split_ifs at hdi with hod hid
        · obtain ⟨-, hs2⟩ := Prod.mk.inj (Except.ok.inj hdi)
          have hl2 : load s2 p = .ok ⟨E.ZSTD_initCCtx (s.next + 1)
              (E.ZSTD_CCtxWorkspaceBound (zstd_params E).cParams), 0, s.next + 1, s1.next + 1⟩ :=
            load_of_objs2 hl1 (by rw [← hs2])
          rw [comp_exit_of_load hl2] at hinit
          refine ⟨_, _, _, hinit, hl1, Nat.succ_ne_zero _, hlive1, ?_, ?_,
            load_of_objs hl2 rfl, rfl, rfl⟩
          · subst hs2
            simp [vfree, hlive1]
          · subst hs2
            simp [vfree, hlive1, hbad1]
        · obtain ⟨hr, -⟩ := Prod.mk.inj (Except.ok.inj hdi)
          exact absurd hr.symm hret
        · obtain ⟨-, hs2⟩ := Prod.mk.inj (Except.ok.inj hdi)
          have hl2 : load s2 p = .ok ⟨E.ZSTD_initCCtx (s.next + 1)
              (E.ZSTD_CCtxWorkspaceBound (zstd_params E).cParams), c0.dctx, s.next + 1, 0⟩ :=
            load_of_objs hl1 (by rw [← hs2])
          rw [comp_exit_of_load hl2] at hinit
          refine ⟨_, _, _, hinit, hl1, Nat.succ_ne_zero _, hlive1, ?_, ?_,
            load_of_objs hl2 rfl, rfl, rfl⟩
          · subst hs2
            simp [vfree, hlive1]
          · subst hs2
            simp [vfree, hlive1, hbad1]
      · simp [ENOMEM] at hci
  · intro s1 ret hci hret
    simp [__zstd_init, hci, hret]

/-- C13, on concrete inputs: on the structure allocated from `boot`, with the
store-only engine, once with the decompression workspace allocation failing
and once with the compression workspace allocation failing. -/
theorem C13_init_cleans_up_partial_construction_witness :
    (∃ s3 c1 c3, __zstd_init storeEngine dwkspFails 1 oneStruct = .ok (-ENOMEM, s3) ∧
      load ⟨0, [(1, ⟨2, 0, 2, 0⟩)], [2, 1], 2, []⟩ 1 = .ok c1 ∧ c1.cwksp ≠ 0 ∧
      [2, 1] = c1.cwksp :: oneStruct.live ∧
      s3.live = oneStruct.live ∧ s3.badFrees = oneStruct.badFrees ∧
      load s3 1 = .ok c3 ∧ c3.cwksp = 0 ∧ c3.cctx = 0) ∧
    __zstd_init storeEngine cwkspFails 1 oneStruct = .ok (-ENOMEM, oneStruct) :=
  ⟨(C13_init_cleans_up_partial_construction storeEngine dwkspFails 1 oneStruct).1
      ⟨0, [(1, ⟨2, 0, 2, 0⟩)], [2, 1], 2, []⟩ ⟨0, [(1, ⟨2, 0, 2, 0⟩)], [2, 1], 2, []⟩ (-ENOMEM)
      (by decide) (by decide) (by decide),
    (C13_init_cleans_up_partial_construction storeEngine cwkspFails 1 oneStruct).2
      oneStruct (-ENOMEM) (by decide) (by decide)⟩

/-! ## C14: the length object on the error path -/

/-- What `__zstd_compress` does on a live context. -/
theorem inner_compress_of_load {E : Engine} {s : KState} {zctx : Ptr} {c : zstd_ctx}
    (hl : load s zctx = .ok c) (src dst : List u8) (slen dlen : Nat) :
    __zstd_compress E s src slen dst dlen zctx =
      .ok (if E.ZSTD_isError (E.ZSTD_compressCCtx c.cctx dst dlen src slen (zstd_params E)).1
          = true
        then ⟨-EINVAL, (E.ZSTD_compressCCtx c.cctx dst dlen src slen (zstd_params E)).2, dlen,
          ⟨c.cctx, dlen, slen, some (zstd_params E)⟩⟩
        else ⟨0, (E.ZSTD_compressCCtx c.cctx dst dlen src slen (zstd_params E)).2,
          to_uint (E.ZSTD_compressCCtx c.cctx dst dlen src slen (zstd_params E)).1,
          ⟨c.cctx, dlen, slen, some (zstd_params E)⟩⟩) := by
  simp only [__zstd_compress, hl]
  split_ifs <;> rfl

/-- What `__zstd_decompress` does on a live context. -/
theorem inner_decompress_of_load {E : Engine} {s : KState} {zctx : Ptr} {c : zstd_ctx}
    (hl : load s zctx = .ok c) (src dst : List u8) (slen dlen : Nat) :
    __zstd_decompress E s src slen dst dlen zctx =
      .ok (if E.ZSTD_isError (E.ZSTD_decompressDCtx c.dctx dst dlen src slen).1 = true
        then ⟨-EINVAL, (E.ZSTD_decompressDCtx c.dctx dst dlen src slen).2, dlen,
          ⟨c.dctx, dlen, slen, none⟩⟩
        else ⟨0, (E.ZSTD_decompressDCtx c.dctx dst dlen src slen).2,
          to_uint (E.ZSTD_decompressDCtx c.dctx dst dlen src slen).1,
          ⟨c.dctx, dlen, slen, none⟩⟩) := by
  simp only [__zstd_decompress, hl]
  split_ifs <;> rfl

/-- C14. Error atomicity of the length out-parameter: on a live context,
`__zstd_compress` and `__zstd_decompress` return; whenever the engine result is
an error they return `-EINVAL` and the `unsigned int` behind `dlen` holds what
it held before the call; it is overwritten (with the engine result) only when
the engine result is not an error, in which case they return 0. -/
theorem C14_dlen_untouched_on_error (E : Engine) (s : KState) (zctx : Ptr) (c : zstd_ctx)
    (hl : load s zctx = .ok c) (src dst : List u8) (slen dlen : Nat) :
    (∃ r, __zstd_compress E s src slen dst dlen zctx = .ok r ∧
      (E.ZSTD_isError (E.ZSTD_compressCCtx c.cctx dst dlen src slen (zstd_params E)).1 = true →
        r.ret = -EINVAL ∧ r.dlen = dlen) ∧
      (E.ZSTD_isError (E.ZSTD_compressCCtx c.cctx dst dlen src slen (zstd_params E)).1 = false →
        r.ret = 0 ∧
        r.dlen = to_uint (E.ZSTD_compressCCtx c.cctx dst dlen src slen (zstd_params E)).1)) ∧
    (∃ r, __zstd_decompress E s src slen dst dlen zctx = .ok r ∧
      (E.ZSTD_isError (E.ZSTD_decompressDCtx c.dctx dst dlen src slen).1 = true →
        r.ret = -EINVAL ∧ r.dlen = dlen) ∧
      (E.ZSTD_isError (E.ZSTD_decompressDCtx c.dctx dst dlen src slen).1 = false →
        r.ret = 0 ∧ r.dlen = to_uint (E.ZSTD_decompressDCtx c.dctx dst dlen src slen).1)) := by
  constructor
  · refine ⟨_, inner_compress_of_load hl src dst slen dlen, ?_, ?_⟩
    · intro h
      rw [if_pos h]
      exact ⟨rfl, rfl⟩
    · intro h
      rw [if_neg (by rw [h]; exact Bool.noConfusion)]
      exact ⟨rfl, rfl⟩
  · refine ⟨_, inner_decompress_of_load hl src dst slen dlen, ?_, ?_⟩
    · intro h
      rw [if_pos h]
      exact ⟨rfl, rfl⟩
    · intro h
      rw [if_neg (by rw [h]; exact Bool.noConfusion)]
      exact ⟨rfl, rfl⟩

/-- C14, on a concrete input: on the instance created from `boot`, a two-page
source into a one-page capacity, which the store-only engine refuses in both
directions; the length object held `PAGE_SIZE`. -/
theorem C14_dlen_untouched_on_error_witness :
    (∃ r, __zstd_compress storeEngine oneInstance twoPages (2 * PAGE_SIZE) zeroPage PAGE_SIZE 1
        = .ok r ∧
      (storeEngine.ZSTD_isError (storeEngine.ZSTD_compressCCtx 2 zeroPage PAGE_SIZE twoPages
          (2 * PAGE_SIZE) (zstd_params storeEngine)).1 = true →
        r.ret = -EINVAL ∧ r.dlen = PAGE_SIZE) ∧
      (storeEngine.ZSTD_isError (storeEngine.ZSTD_compressCCtx 2 zeroPage PAGE_SIZE twoPages
          (2 * PAGE_SIZE) (zstd_params storeEngine)).1 = false →
        r.ret = 0 ∧
        r.dlen = to_uint (storeEngine.ZSTD_compressCCtx 2 zeroPage PAGE_SIZE twoPages
          (2 * PAGE_SIZE) (zstd_params storeEngine)).1)) ∧
    (∃ r, __zstd_decompress storeEngine oneInstance twoPages (2 * PAGE_SIZE) zeroPage PAGE_SIZE 1
        = .ok r ∧
      (storeEngine.ZSTD_isError (storeEngine.ZSTD_decompressDCtx 3 zeroPage PAGE_SIZE twoPages
          (2 * PAGE_SIZE)).1 = true →
        r.ret = -EINVAL ∧ r.dlen = PAGE_SIZE) ∧
      (storeEngine.ZSTD_isError (storeEngine.ZSTD_decompressDCtx 3 zeroPage PAGE_SIZE twoPages
          (2 * PAGE_SIZE)).1 = false →
        r.ret = 0 ∧
        r.dlen = to_uint (storeEngine.ZSTD_decompressDCtx 3 zeroPage PAGE_SIZE twoPages
          (2 * PAGE_SIZE)).1)) :=
  C14_dlen_untouched_on_error storeEngine oneInstance 1 ⟨2, 3, 2, 3⟩ load_oneInstance twoPages
    zeroPage (2 * PAGE_SIZE) PAGE_SIZE

end ZcompZstd

namespace Isa1000

/-! ## C15: the duty percentage of `drivers/misc/isa1000.c` -/

/-- The duty `isa1000_config` computes at 30 kHz for a percentage in
`[0, 100]`: the `unsigned int` computation does not wrap. -/
theorem misc_duty_exact (percent : Int) (h0 : 0 ≤ percent) (h1 : percent ≤ 100) :
    to_int ((((NSEC_PER_SEC / 30000) % 4294967296) * to_u32 (percent + Misc.PWM_PERCENT_MAX))
      % 4294967296 / to_u32 (2 * Misc.PWM_PERCENT_MAX)) = 33333 * (percent + 100) / 200 := by
  interval_cases percent <;> rfl

/-- What `isa1000_pwm_store` leaves in `pwm_duty_percent`: the clamped value. -/
theorem store_percent (vib : Misc.isa1000_vib) (tmp : Int) (size : Nat) :
    (Misc.isa1000_pwm_store vib tmp size).1.pwm_duty_percent = max 0 (min tmp 100) := by
  simp only [Misc.isa1000_pwm_store, Misc.PWM_PERCENT_MAX, Misc.PWM_PERCENT_MIN]
  split_ifs <;> omega

/-- The invariant of the device over any sequence of attribute writes. -/
theorem run_stores_inv (stores : List (Int × Nat)) (vib : Misc.isa1000_vib)
    (hf : vib.pwm_frequency = 30000) (h0 : 0 ≤ vib.pwm_duty_percent)
    (h1 : vib.pwm_duty_percent ≤ 100) :
    (Misc.run_stores stores vib).pwm_frequency = 30000 ∧
    0 ≤ (Misc.run_stores stores vib).pwm_duty_percent ∧
    (Misc.run_stores stores vib).pwm_duty_percent ≤ 100 := by
  induction stores generalizing vib with
  | nil => exact ⟨hf, h0, h1⟩
  | cons hd tl ih =>
    obtain ⟨tmp, size⟩ := hd
    have hp := store_percent vib tmp size
    exact ih _ hf (by rw [hp]; omega) (by rw [hp]; omega)

/-- What `isa1000_config` does at 30 kHz for a percentage in `[0, 100]`. -/
theorem config_exact (P : Pwm) (vib : Misc.isa1000_vib) (percent : Int)
    (hf : vib.pwm_frequency = 30000) (h0 : 0 ≤ percent) (h1 : percent ≤ 100) :
    Misc.isa1000_config P vib percent =
      (P.pwm_config (33333 * (percent + 100) / 200) 33333,
        { vib with hw := vib.hw ++ [HwOp.pwm_config (33333 * (percent + 100) / 200) 33333] }) := by
  have hper : to_int ((NSEC_PER_SEC / 30000) % 4294967296) = 33333 := by rfl
  simp only [Misc.isa1000_config, hf, misc_duty_exact percent h0 h1, hper]

/-- C15. Duty-percent invariant of the isa1000 driver: `pwm_duty_percent`
starts at 100; an `isa1000_pwm_store` leaves the value of `tmp` clamped to
`[0, 100]` in it, whatever `tmp` holds; so after any sequence of stores
`pwm_frequency` is 30000 and the percentage lies in `[0, 100]`, and
`isa1000_config` with that percentage hands `pwm_config` the period 33333 and
the duty `33333 * (percent + 100) / 200`, the product staying below `2 ^ 32`,
with `33333 / 2 ≤ duty ≤ 33333`; and for percentages `p ≤ q` in `[0, 100]` the
duty configured for `p` is at most the one configured for `q`. -/
theorem C15_duty_percent_invariant (P : Pwm) (stores : List (Int × Nat)) (tmp : Int) (size : Nat)
    (p q : Int) (hp : 0 ≤ p) (hpq : p ≤ q) (hq : q ≤ 100) :
    Misc.vib_dev.pwm_duty_percent = 100 ∧
    (Misc.isa1000_pwm_store (Misc.run_stores stores Misc.vib_dev) tmp size).1.pwm_duty_percent
      = max 0 (min tmp 100) ∧
    (Misc.run_stores stores Misc.vib_dev).pwm_frequency = 30000 ∧
    0 ≤ (Misc.run_stores stores Misc.vib_dev).pwm_duty_percent ∧
    (Misc.run_stores stores Misc.vib_dev).pwm_duty_percent ≤ 100 ∧
    (Misc.isa1000_config P (Misc.run_stores stores Misc.vib_dev)
        (Misc.run_stores stores Misc.vib_dev).pwm_duty_percent).2.hw =
      (Misc.run_stores stores Misc.vib_dev).hw ++
        [HwOp.pwm_config
          (33333 * ((Misc.run_stores stores Misc.vib_dev).pwm_duty_percent + 100) / 200) 33333] ∧
    33333 * ((Misc.run_stores stores Misc.vib_dev).pwm_duty_percent + 100) < 4294967296 ∧
    33333 / 2 ≤ 33333 * ((Misc.run_stores stores Misc.vib_dev).pwm_duty_percent + 100) / 200 ∧
    33333 * ((Misc.run_stores stores Misc.vib_dev).pwm_duty_percent + 100) / 200 ≤ 33333 ∧
    (Misc.isa1000_config P (Misc.run_stores stores Misc.vib_dev) p).2.hw =
      (Misc.run_stores stores Misc.vib_dev).hw ++
        [HwOp.pwm_config (33333 * (p + 100) / 200) 33333] ∧
    (Misc.isa1000_config P (Misc.run_stores stores Misc.vib_dev) q).2.hw =
      (Misc.run_stores stores Misc.vib_dev).hw ++
        [HwOp.pwm_config (33333 * (q + 100) / 200) 33333] ∧
    33333 * (p + 100) / 200 ≤ 33333 * (q + 100) / 200 := by
  obtain ⟨hf, h0, h1⟩ := run_stores_inv stores Misc.vib_dev rfl (by decide) (by decide)
  refine ⟨rfl, store_percent _ tmp size, hf, h0, h1, ?_, by omega, by omega, by omega, ?_, ?_,
    by omega⟩
  · rw [config_exact P _ _ hf h0 h1]
  · rw [config_exact P _ _ hf hp (by omega)]
  · rw [config_exact P _ _ hf (by omega) hq]

/-- C15, on a concrete input: the writes `250`, `-7`, `40`, then a write of
`1000`, and the percentages 0 and 100. -/
theorem C15_duty_percent_invariant_witness :
    Misc.vib_dev.pwm_duty_percent = 100 ∧
    (Misc.isa1000_pwm_store (Misc.run_stores [(250, 4), (-7, 3), (40, 3)] Misc.vib_dev)
      1000 5).1.pwm_duty_percent = max 0 (min 1000 100) ∧
    (Misc.run_stores [(250, 4), (-7, 3), (40, 3)] Misc.vib_dev).pwm_frequency = 30000 ∧
    0 ≤ (Misc.run_stores [(250, 4), (-7, 3), (40, 3)] Misc.vib_dev).pwm_duty_percent ∧
    (Misc.run_stores [(250, 4), (-7, 3), (40, 3)] Misc.vib_dev).pwm_duty_percent ≤ 100 ∧
    (Misc.isa1000_config pwmOk (Misc.run_stores [(250, 4), (-7, 3), (40, 3)] Misc.vib_dev)
        (Misc.run_stores [(250, 4), (-7, 3), (40, 3)] Misc.vib_dev).pwm_duty_percent).2.hw =
      (Misc.run_stores [(250, 4), (-7, 3), (40, 3)] Misc.vib_dev).hw ++
        [HwOp.pwm_config (33333 *
          ((Misc.run_stores [(250, 4), (-7, 3), (40, 3)] Misc.vib_dev).pwm_duty_percent + 100)
            / 200) 33333] ∧
    33333 * ((Misc.run_stores [(250, 4), (-7, 3), (40, 3)] Misc.vib_dev).pwm_duty_percent + 100)
      < 4294967296 ∧
    33333 / 2 ≤ 33333 *
      ((Misc.run_stores [(250, 4), (-7, 3), (40, 3)] Misc.vib_dev).pwm_duty_percent + 100) / 200 ∧
    33333 * ((Misc.run_stores [(250, 4), (-7, 3), (40, 3)] Misc.vib_dev).pwm_duty_percent + 100)
      / 200 ≤ 33333 ∧
    (Misc.isa1000_config pwmOk (Misc.run_stores [(250, 4), (-7, 3), (40, 3)] Misc.vib_dev) 0).2.hw =
      (Misc.run_stores [(250, 4), (-7, 3), (40, 3)] Misc.vib_dev).hw ++
        [HwOp.pwm_config (33333 * (0 + 100) / 200) 33333] ∧
    (Misc.isa1000_config pwmOk (Misc.run_stores [(250, 4), (-7, 3), (40, 3)] Misc.vib_dev)
        100).2.hw =
      (Misc.run_stores [(250, 4), (-7, 3), (40, 3)] Misc.vib_dev).hw ++
        [HwOp.pwm_config (33333 * (100 + 100) / 200) 33333] ∧
    33333 * ((0 : Int) + 100) / 200 ≤ 33333 * (100 + 100) / 200 :=
  C15_duty_percent_invariant pwmOk [(250, 4), (-7, 3), (40, 3)] 1000 5 0 100 (by decide)
    (by decide) (by decide)

/-! ## C16: the armed vibration time -/

/-- The timer arguments computed from a capped time `v` in `[0, INT_MAX]`. -/
theorem timer_args_exact (v : Int) (h0 : 0 ≤ v) (h1 : v ≤ 2147483647) :
    Int.tdiv v 1000 = v / 1000 ∧
    wrap_int (Int.tmod v 1000 * 1000000) = v % 1000 * 1000000 ∧
    v % 1000 * 1000000 < 1000000000 ∧
    ktime_set (v / 1000) (v % 1000 * 1000000) = v * 1000000 := by
  have hd : Int.tdiv v 1000 = v / 1000 := Int.tdiv_eq_ediv h0 (by decide)
  have hm : Int.tmod v 1000 = v % 1000 := Int.tmod_eq_emod h0 (by decide)
  refine ⟨hd, ?_, by omega, ?_⟩
  · rw [hm]
    unfold wrap_int
    omega
  · unfold ktime_set KTIME_SEC_MAX NSEC_PER_SEC
    rw [if_neg (by omega)]
    push_cast
    omega

/-- C16. Vibration time is capped by the timeout, in `isa1000_enable` and in
`isa1000_vib_enable`: for `value = 0` the state is set off and no timer is
armed; for every `int` `value > 0`, with `timeout ≥ 0`, the state is set on
and the timer is armed with `ktime_set(v / 1000, (v % 1000) * 1000000)` for
`v = min(value, timeout)`, where the nanosecond argument is below `10 ^ 9`, the
armed time is `v` milliseconds, and `v` is at most `timeout`. -/
theorem C16_enable_caps_vibration_time (m : Misc.isa1000_vib) (t : Tspdrv.isa1000_vib)
    (value : Int) (hv : 0 < value) (hint : value ≤ 2147483647) (hm : 0 ≤ m.timeout)
    (ht : 0 ≤ t.timeout) :
    ((Misc.isa1000_enable m 0).state = false ∧ (Misc.isa1000_enable m 0).vib_timer = none) ∧
    ((Tspdrv.isa1000_vib_enable t 0).state = 0 ∧ (Tspdrv.isa1000_vib_enable t 0).vib_timer = none) ∧
    ((Misc.isa1000_enable m value).state = true ∧
      (Misc.isa1000_enable m value).vib_timer =
        some (min value m.timeout / 1000, min value m.timeout % 1000 * 1000000) ∧
      min value m.timeout % 1000 * 1000000 < 1000000000 ∧
      ktime_set (min value m.timeout / 1000) (min value m.timeout % 1000 * 1000000) =
        min value m.timeout * 1000000 ∧
      min value m.timeout ≤ m.timeout) ∧
    ((Tspdrv.isa1000_vib_enable t value).state = 1 ∧
      (Tspdrv.isa1000_vib_enable t value).vib_timer =
        some (min value t.timeout / 1000, min value t.timeout % 1000 * 1000000) ∧
      min value t.timeout % 1000 * 1000000 < 1000000000 ∧
      ktime_set (min value t.timeout / 1000) (min value t.timeout % 1000 * 1000000) =
        min value t.timeout * 1000000 ∧
      min value t.timeout ≤ t.timeout) := by
  have hne : value ≠ 0 := ne_of_gt hv
  have hcapm : (if value > m.timeout then m.timeout else value) = min value m.timeout := by
    split_ifs <;> omega
  have hcapt : (if value > t.timeout then t.timeout else value) = min value t.timeout := by
    split_ifs <;> omega
  obtain ⟨hm1, hm2, hm3, hm4⟩ := timer_args_exact (min value m.timeout) (by omega) (by omega)
  obtain ⟨ht1, ht2, ht3, ht4⟩ := timer_args_exact (min value t.timeout) (by omega) (by omega)
  refine ⟨⟨rfl, rfl⟩, ⟨rfl, rfl⟩, ⟨?_, ?_, hm3, hm4, min_le_right _ _⟩,
    ⟨?_, ?_, ht3, ht4, min_le_right _ _⟩⟩
  · simp [Misc.isa1000_enable, hne]
  · simp only [Misc.isa1000_enable, if_neg hne, hcapm, hm1, hm2]
  · simp [Tspdrv.isa1000_vib_enable, hne]
  · simp only [Tspdrv.isa1000_vib_enable, if_neg hne, hcapt, ht1, ht2]

/-- C16, on a concrete input: a request of 20000 ms on the device of
`drivers/misc/isa1000.c` as declared (timeout 15000) and on a probed tspdrv
device with the timeout 15000. -/
theorem C16_enable_caps_vibration_time_witness :
    ((Misc.isa1000_enable Misc.vib_dev 0).state = false ∧
      (Misc.isa1000_enable Misc.vib_dev 0).vib_timer = none) ∧
    ((Tspdrv.isa1000_vib_enable ⟨5, 15000, 0, none, false⟩ 0).state = 0 ∧
      (Tspdrv.isa1000_vib_enable ⟨5, 15000, 0, none, false⟩ 0).vib_timer = none) ∧
    ((Misc.isa1000_enable Misc.vib_dev 20000).state = true ∧
      (Misc.isa1000_enable Misc.vib_dev 20000).vib_timer =
        some (min 20000 Misc.vib_dev.timeout / 1000,
          min 20000 Misc.vib_dev.timeout % 1000 * 1000000) ∧
      min 20000 Misc.vib_dev.timeout % 1000 * 1000000 < 1000000000 ∧
      ktime_set (min 20000 Misc.vib_dev.timeout / 1000)
          (min 20000 Misc.vib_dev.timeout % 1000 * 1000000) =
        min 20000 Misc.vib_dev.timeout * 1000000 ∧
      min 20000 Misc.vib_dev.timeout ≤ Misc.vib_dev.timeout) ∧
    ((Tspdrv.isa1000_vib_enable ⟨5, 15000, 0, none, false⟩ 20000).state = 1 ∧
      (Tspdrv.isa1000_vib_enable ⟨5, 15000, 0, none, false⟩ 20000).vib_timer =
        some (min 20000 15000 / 1000, min 20000 15000 % 1000 * 1000000) ∧
      min 20000 15000 % 1000 * 1000000 < (1000000000 : Int) ∧
      ktime_set (min 20000 15000 / 1000) (min 20000 15000 % 1000 * 1000000) =
        min 20000 15000 * 1000000 ∧
      min 20000 15000 ≤ (15000 : Int)) :=
  C16_enable_caps_vibration_time Misc.vib_dev ⟨5, 15000, 0, none, false⟩ 20000 (by decide)
    (by decide) (by decide) (by decide)

/-! ## C17: the samples `ImmVibeSPI_ForceOut_SetSamples` accepts -/

theorem s8_range (b : Fin 256) : -128 ≤ Tspdrv.s8 b ∧ Tspdrv.s8 b ≤ 127 := by
  have hb := b.isLt
  unfold Tspdrv.s8
  split_ifs <;> omega

theorem s16_range (lo hi : Fin 256) :
    -32768 ≤ Tspdrv.s16 lo hi ∧ Tspdrv.s16 lo hi ≤ 32767 := by
  have h1 := lo.isLt
  have h2 := hi.isLt
  unfold Tspdrv.s16
  split_ifs <;> omega

theorem shift8_eq_div (x : Int) : x >>> (8 : Nat) = x / 256 := Int.shiftRight_eq_div_pow x 8

/-- C17. `ImmVibeSPI_ForceOut_SetSamples` accepts exactly single-sample
buffers: it returns `VIBE_S_SUCCESS` if and only if the bit depth is 8 and the
buffer size 1, or the bit depth is 16 and the buffer size 2; otherwise it
returns `VIBE_E_FAIL` and leaves the driver variables as they were; in the
8-bit case the state after is that of `isa1000_vib_set_level` called with the
byte read as a signed 8-bit sample, in the 16-bit case with the signed 16-bit
sample divided by 256 rounding down; either level lies in `[-128, 127]`. -/
theorem C17_set_samples_single_sample (P : Pwm) (idx depth size : Nat) (buf : List (Fin 256))
    (d : Tspdrv.Driver) :
    ((Tspdrv.ImmVibeSPI_ForceOut_SetSamples P idx depth size buf d).1 = Tspdrv.VIBE_S_SUCCESS ↔
      (depth = 8 ∧ size = 1) ∨ (depth = 16 ∧ size = 2)) ∧
    ((Tspdrv.ImmVibeSPI_ForceOut_SetSamples P idx depth size buf d).1 ≠ Tspdrv.VIBE_S_SUCCESS →
      Tspdrv.ImmVibeSPI_ForceOut_SetSamples P idx depth size buf d = (Tspdrv.VIBE_E_FAIL, d)) ∧
    (depth = 8 ∧ size = 1 →
      (Tspdrv.ImmVibeSPI_ForceOut_SetSamples P idx depth size buf d).2 =
        Tspdrv.isa1000_vib_set_level P (Tspdrv.s8 (buf.getD 0 0)) d) ∧
    (depth = 16 ∧ size = 2 →
      (Tspdrv.ImmVibeSPI_ForceOut_SetSamples P idx depth size buf d).2 =
        Tspdrv.isa1000_vib_set_level P (Tspdrv.s16 (buf.getD 0 0) (buf.getD 1 0) / 256) d) ∧
    (-128 ≤ Tspdrv.s8 (buf.getD 0 0) ∧ Tspdrv.s8 (buf.getD 0 0) ≤ 127) ∧
    (-128 ≤ Tspdrv.s16 (buf.getD 0 0) (buf.getD 1 0) / 256 ∧
      Tspdrv.s16 (buf.getD 0 0) (buf.getD 1 0) / 256 ≤ 127) := by
  have hr := s16_range (buf.getD 0 0) (buf.getD 1 0)
  refine ⟨?_, ?_, ?_, ?_, s8_range _, by omega, by omega⟩
  · unfold Tspdrv.ImmVibeSPI_ForceOut_SetSamples
    by_cases h8 : depth = 8
    · by_cases h1 : size = 1 <;> simp [h8, h1, Tspdrv.VIBE_S_SUCCESS, Tspdrv.VIBE_E_FAIL]
    · by_cases h16 : depth = 16
      · by_cases h2 : size = 2 <;> simp [h16, h2, Tspdrv.VIBE_S_SUCCESS, Tspdrv.VIBE_E_FAIL]
      · simp [h8, h16, Tspdrv.VIBE_S_SUCCESS, Tspdrv.VIBE_E_FAIL]
  · unfold Tspdrv.ImmVibeSPI_ForceOut_SetSamples
    by_cases h8 : depth = 8
    · by_cases h1 : size = 1 <;> simp [h8, h1]
    · by_cases h16 : depth = 16
      · by_cases h2 : size = 2 <;> simp [h16, h2]
      · simp [h8, h16]
  · rintro ⟨h8, h1⟩
    simp [Tspdrv.ImmVibeSPI_ForceOut_SetSamples, h8, h1]
  · rintro ⟨h16, h2⟩
    simp [Tspdrv.ImmVibeSPI_ForceOut_SetSamples, h16, h2, shift8_eq_div]

/-- C17, on a concrete input: the 16-bit sample `0x8034` on a probed device,
and a 16-bit request with a one-byte buffer. -/
theorem C17_set_samples_single_sample_witness :
    (Tspdrv.ImmVibeSPI_ForceOut_SetSamples pwmOk 0 16 2 [0x34, 0x80] Tspdrv.probed).2 =
      Tspdrv.isa1000_vib_set_level pwmOk
        (Tspdrv.s16 ([0x34, 0x80].getD 0 0) ([0x34, 0x80].getD 1 0) / 256) Tspdrv.probed ∧
    Tspdrv.ImmVibeSPI_ForceOut_SetSamples pwmOk 0 16 1 [0x34] Tspdrv.probed =
      (Tspdrv.VIBE_E_FAIL, Tspdrv.probed) :=
  ⟨(C17_set_samples_single_sample pwmOk 0 16 2 [0x34, 0x80] Tspdrv.probed).2.2.2.1 ⟨rfl, rfl⟩,
    (C17_set_samples_single_sample pwmOk 0 16 1 [0x34] Tspdrv.probed).2.1 (by decide)⟩

/-! ## C18: the duty `isa1000_vib_set_level` configures -/

/-- The duty `isa1000_vib_set_level` computes for a level in `[-128, 127]`: the
`unsigned int` computation does not wrap. -/
theorem tspdrv_duty_exact (level : Int) (h0 : -128 ≤ level) (h1 : level ≤ 127) :
    to_int (((Tspdrv.pwm_period_ns * to_u32 (level + 128)) % 4294967296) / to_u32 256) =
      33333 * (level + 128) / 256 := by
  interval_cases level <;> rfl

theorem pwm_period_ns_eq : Tspdrv.pwm_period_ns = 33333 := by decide

theorem to_int_pwm_period_ns : to_int Tspdrv.pwm_period_ns = 33333 := by decide

/-- The fixture `probed` is what the last call of `isa1000_probe` leaves. -/
theorem probed_eq (P : Pwm) : Tspdrv.isa1000_vib_set_level P 0 Tspdrv.attached = Tspdrv.probed := by
  rfl

/-- C18. Duty bound in `isa1000_vib_set_level`, on a device that is present:
for every non-zero level in `[-128, 127]` other than `last_level`, the first
operation issued is `pwm_config` with the period `pwm_period_ns = 33333` and
the duty `33333 * (level + 128) / 256`, the product staying below `2 ^ 32` and
the duty in `[0, 33333)`; level 0 (when `last_level` is not 0) issues no
`pwm_config`, switches the GPIO off, disables the PWM and becomes `last_level`;
a call with `level = last_level` changes nothing; when `pwm_config` or
`pwm_enable` fails `last_level` keeps its value, the GPIO being switched off
and nothing else changed; when both succeed the call issues `pwm_config`,
`pwm_enable`, switches the GPIO on and records `last_level = level`; so a
second call with a level that was applied successfully changes nothing,
whatever the PWM core would answer. -/
theorem C18_set_level_duty (P P2 : Pwm) (d : Tspdrv.Driver) (vib : Tspdrv.isa1000_vib)
    (level : Int) (hdev : d.vib_dev = some vib) :
    (level ≠ 0 → -128 ≤ level → level ≤ 127 → d.last_level ≠ level →
      (∃ rest, (Tspdrv.isa1000_vib_set_level P level d).hw =
        d.hw ++ HwOp.pwm_config (33333 * (level + 128) / 256) 33333 :: rest) ∧
      Tspdrv.pwm_period_ns = 33333 ∧
      (Tspdrv.pwm_period_ns : Int) * (level + 128) < 4294967296 ∧
      0 ≤ 33333 * (level + 128) / 256 ∧ 33333 * (level + 128) / 256 < 33333) ∧
    (d.last_level ≠ 0 →
      Tspdrv.isa1000_vib_set_level P 0 d =
        { d with hw := d.hw ++ [HwOp.gpio_set vib.enable_gpio 0, HwOp.pwm_disable],
                 last_level := 0 }) ∧
    (d.last_level = level → Tspdrv.isa1000_vib_set_level P level d = d) ∧
    (level ≠ 0 → d.last_level ≠ level →
      (P.pwm_config
          (to_int (((Tspdrv.pwm_period_ns * to_u32 (level + 128)) % 4294967296) / to_u32 256))
          (to_int Tspdrv.pwm_period_ns) < 0 ∨ P.pwm_enable < 0) →
      (Tspdrv.isa1000_vib_set_level P level d).last_level = d.last_level) ∧
    (level ≠ 0 → d.last_level ≠ level →
      ¬ P.pwm_config
          (to_int (((Tspdrv.pwm_period_ns * to_u32 (level + 128)) % 4294967296) / to_u32 256))
          (to_int Tspdrv.pwm_period_ns) < 0 →
      ¬ P.pwm_enable < 0 →
      Tspdrv.isa1000_vib_set_level P level d =
        { d with
          hw := d.hw ++ [HwOp.pwm_config
              (to_int (((Tspdrv.pwm_period_ns * to_u32 (level + 128)) % 4294967296) / to_u32 256))
              (to_int Tspdrv.pwm_period_ns),
            HwOp.pwm_enable, HwOp.gpio_set vib.enable_gpio 1],
          last_level := level }) ∧
    (level ≠ 0 → d.last_level ≠ level →
      P.pwm_config
          (to_int (((Tspdrv.pwm_period_ns * to_u32 (level + 128)) % 4294967296) / to_u32 256))
          (to_int Tspdrv.pwm_period_ns) < 0 →
      Tspdrv.isa1000_vib_set_level P level d =
        { d with
          hw := d.hw ++ [HwOp.pwm_config
              (to_int (((Tspdrv.pwm_period_ns * to_u32 (level + 128)) % 4294967296) / to_u32 256))
              (to_int Tspdrv.pwm_period_ns),
            HwOp.gpio_set vib.enable_gpio 0] }) ∧
    (level ≠ 0 → d.last_level ≠ level →
      ¬ P.pwm_config
          (to_int (((Tspdrv.pwm_period_ns * to_u32 (level + 128)) % 4294967296) / to_u32 256))
          (to_int Tspdrv.pwm_period_ns) < 0 →
      P.pwm_enable < 0 →
      Tspdrv.isa1000_vib_set_level P level d =
        { d with
          hw := d.hw ++ [HwOp.pwm_config
              (to_int (((Tspdrv.pwm_period_ns * to_u32 (level + 128)) % 4294967296) / to_u32 256))
              (to_int Tspdrv.pwm_period_ns),
            HwOp.pwm_enable, HwOp.gpio_set vib.enable_gpio 0] }) ∧
    ((level = 0 ∨
        (¬ P.pwm_config
            (to_int (((Tspdrv.pwm_period_ns * to_u32 (level + 128)) % 4294967296) / to_u32 256))
            (to_int Tspdrv.pwm_period_ns) < 0 ∧ ¬ P.pwm_enable < 0)) →
      (Tspdrv.isa1000_vib_set_level P level d).last_level = level ∧
      Tspdrv.isa1000_vib_set_level P2 level (Tspdrv.isa1000_vib_set_level P level d) =
        Tspdrv.isa1000_vib_set_level P level d) := by
  have hsucc : level ≠ 0 → d.last_level ≠ level →
      ¬ P.pwm_config
          (to_int (((Tspdrv.pwm_period_ns * to_u32 (level + 128)) % 4294967296) / to_u32 256))
          (to_int Tspdrv.pwm_period_ns) < 0 →
      ¬ P.pwm_enable < 0 →
      Tspdrv.isa1000_vib_set_level P level d =
        { d with
          hw := d.hw ++ [HwOp.pwm_config
              (to_int (((Tspdrv.pwm_period_ns * to_u32 (level + 128)) % 4294967296) / to_u32 256))
              (to_int Tspdrv.pwm_period_ns),
            HwOp.pwm_enable, HwOp.gpio_set vib.enable_gpio 1],
          last_level := level } := by
    intro hne hl hc he
    simp [Tspdrv.isa1000_vib_set_level, hdev, hl, hne, hc, he]
  have hzero : d.last_level ≠ 0 →
      Tspdrv.isa1000_vib_set_level P 0 d =
        { d with hw := d.hw ++ [HwOp.gpio_set vib.enable_gpio 0, HwOp.pwm_disable],
                 last_level := 0 } := by
    intro hl
    simp [Tspdrv.isa1000_vib_set_level, hdev, hl]
  have hsame : ∀ (Q : Pwm) (e : Tspdrv.Driver), e.last_level = level →
      Tspdrv.isa1000_vib_set_level Q level e = e := by
    intro Q e hl
    unfold Tspdrv.isa1000_vib_set_level
    cases e.vib_dev with
    | none => rfl
    | some v => simp [hl]
  refine ⟨?_, hzero, hsame P d, ?_, hsucc, ?_, ?_, ?_⟩
  · intro hne h0 h1 hl
    refine ⟨?_, pwm_period_ns_eq, by rw [pwm_period_ns_eq]; push_cast; omega, by omega,
      by omega⟩
    simp only [Tspdrv.isa1000_vib_set_level, hdev, if_neg hl, hne, ne_eq, not_false_eq_true,
      if_true, tspdrv_duty_exact level h0 h1, to_int_pwm_period_ns]
    split_ifs
    · exact ⟨[HwOp.gpio_set vib.enable_gpio 0], by simp⟩
    · exact ⟨[HwOp.pwm_enable, HwOp.gpio_set vib.enable_gpio 0], by simp⟩
    · exact ⟨[HwOp.pwm_enable, HwOp.gpio_set vib.enable_gpio 1], by simp⟩
  · intro hne hl hfail
    simp only [Tspdrv.isa1000_vib_set_level, hdev, if_neg hl, hne, ne_eq, not_false_eq_true,
      if_true]
    split_ifs with hc he
    · rfl
    · rfl
    · rcases hfail with hf | hf
      · exact absurd hf hc
      · exact absurd hf he
  · intro hne hl hc
    simp [Tspdrv.isa1000_vib_set_level, hdev, hl, hne, hc]
  · intro hne hl hc he
    simp [Tspdrv.isa1000_vib_set_level, hdev, hl, hne, hc, he]
  · intro happ
    have hlast : (Tspdrv.isa1000_vib_set_level P level d).last_level = level := by
      by_cases hl : d.last_level = level
      · rw [hsame P d hl]; exact hl
      · rcases happ with h0 | ⟨hc, he⟩
        · subst h0
          rw [hzero hl]
        · by_cases hne : level = 0
          · subst hne
            rw [hzero hl]
          · rw [hsucc hne hl hc he]
    exact ⟨hlast, hsame P2 _ hlast⟩

/-- C18, on concrete inputs: on the probed device (`last_level = 0`), level
`-56` with a working PWM core and the same level once more; level 0 after
that; level 0 on the probed device; level `-56` with a PWM core that refuses
the configuration and with one that cannot be enabled. -/
theorem C18_set_level_duty_witness :
    ((∃ rest, (Tspdrv.isa1000_vib_set_level pwmOk (-56) Tspdrv.probed).hw =
        Tspdrv.probed.hw ++ HwOp.pwm_config (33333 * (-56 + 128) / 256) 33333 :: rest) ∧
      Tspdrv.pwm_period_ns = 33333 ∧
      (Tspdrv.pwm_period_ns : Int) * (-56 + 128) < 4294967296 ∧
      (0 : Int) ≤ 33333 * (-56 + 128) / 256 ∧ (33333 : Int) * (-56 + 128) / 256 < 33333) ∧
    Tspdrv.isa1000_vib_set_level pwmOk 0 ⟨some ⟨5, 15000, 0, none, false⟩, -56, []⟩ =
      ⟨some ⟨5, 15000, 0, none, false⟩, 0, [HwOp.gpio_set 5 0, HwOp.pwm_disable]⟩ ∧
    Tspdrv.isa1000_vib_set_level pwmOk 0 Tspdrv.probed = Tspdrv.probed ∧
    (Tspdrv.isa1000_vib_set_level pwmConfigFails (-56) Tspdrv.probed).last_level =
      Tspdrv.probed.last_level ∧
    Tspdrv.isa1000_vib_set_level pwmOk (-56) Tspdrv.probed =
      ⟨some ⟨5, 15000, 0, none, false⟩, -56,
        [HwOp.gpio_set 5 0, HwOp.pwm_disable, HwOp.pwm_config 9374 33333, HwOp.pwm_enable,
          HwOp.gpio_set 5 1]⟩ ∧
    Tspdrv.isa1000_vib_set_level pwmConfigFails (-56) Tspdrv.probed =
      ⟨some ⟨5, 15000, 0, none, false⟩, 0,
        [HwOp.gpio_set 5 0, HwOp.pwm_disable, HwOp.pwm_config 9374 33333, HwOp.gpio_set 5 0]⟩ ∧
    Tspdrv.isa1000_vib_set_level pwmEnableFails (-56) Tspdrv.probed =
      ⟨some ⟨5, 15000, 0, none, false⟩, 0,
        [HwOp.gpio_set 5 0, HwOp.pwm_disable, HwOp.pwm_config 9374 33333, HwOp.pwm_enable,
          HwOp.gpio_set 5 0]⟩ ∧
    ((Tspdrv.isa1000_vib_set_level pwmOk (-56) Tspdrv.probed).last_level = -56 ∧
      Tspdrv.isa1000_vib_set_level pwmConfigFails (-56)
          (Tspdrv.isa1000_vib_set_level pwmOk (-56) Tspdrv.probed) =
        Tspdrv.isa1000_vib_set_level pwmOk (-56) Tspdrv.probed) :=
  ⟨(C18_set_level_duty pwmOk pwmOk Tspdrv.probed ⟨5, 15000, 0, none, false⟩ (-56) rfl).1
      (by decide) (by decide) (by decide) (by decide),
    (C18_set_level_duty pwmOk pwmOk ⟨some ⟨5, 15000, 0, none, false⟩, -56, []⟩
      ⟨5, 15000, 0, none, false⟩ 0 rfl).2.1 (by decide),
    (C18_set_level_duty pwmOk pwmOk Tspdrv.probed ⟨5, 15000, 0, none, false⟩ 0 rfl).2.2.1 rfl,
    (C18_set_level_duty pwmConfigFails pwmOk Tspdrv.probed ⟨5, 15000, 0, none, false⟩ (-56)
      rfl).2.2.2.1 (by decide) (by decide) (Or.inl (by decide)),
    (C18_set_level_duty pwmOk pwmOk Tspdrv.probed ⟨5, 15000, 0, none, false⟩ (-56)
      rfl).2.2.2.2.1 (by decide) (by decide) (by decide) (by decide),
    (C18_set_level_duty pwmConfigFails pwmOk Tspdrv.probed ⟨5, 15000, 0, none, false⟩ (-56)
      rfl).2.2.2.2.2.1 (by decide) (by decide) (by decide),
    (C18_set_level_duty pwmEnableFails pwmOk Tspdrv.probed ⟨5, 15000, 0, none, false⟩ (-56)
      rfl).2.2.2.2.2.2.1 (by decide) (by decide) (by decide) (by decide),
    (C18_set_level_duty pwmOk pwmConfigFails Tspdrv.probed ⟨5, 15000, 0, none, false⟩ (-56)
      rfl).2.2.2.2.2.2.2 (Or.inr ⟨by decide, by decide⟩)⟩

end Isa1000
